import Mathlib

/-!
Verification of the TaxHawk deterministic tax-optimization engine.

This file is a shallow embedding, in Lean 4, of the engine under
`client/src/engine/` (taxUtils.js, redemptionCalculator, the seven check
functions, the data models and the orchestrator `runAllChecks`).

Conventions of the embedding:
* JavaScript numbers are modelled as exact rationals (`ℚ`); every rate and
  rupee amount in the engine is a small decimal, so the idealized rational
  arithmetic coincides with the intended arithmetic of the source.
* `Math.round` (round half toward positive infinity) is `jround`.
* `Infinity` as a slab upper limit is `Option ℚ` with `none` for the
  unbounded slab.
* String-keyed lookups (financial year, regime, age category, city,
  security type, finding status) keep their JavaScript string values.
* Prose message strings (the `finding` field of a Finding) are abstracted
  to the tagged type `FText`, one constructor per distinct message of the
  source, carrying the numeric values interpolated into the message.
  Prose-only fields (`action`, `explanation`) that no orchestrator logic
  reads are not modelled.
* The ambient clock (`new Date()`) used by the capital-gains check when no
  reference date is supplied is threaded as an explicit `today` parameter.
-/

/-- JavaScript `Math.round`: round half toward positive infinity. -/
def jround (q : ℚ) : ℚ := ((⌊q + 1/2⌋ : ℤ) : ℚ)

/-- One slab row `[upper_limit, rate]`; `none` stands for `Infinity`. -/
abbrev Slab := Option ℚ × ℚ

-- ── Statutory constants (taxUtils.js) ──────────────────────────────────

def NEW_REGIME_SLABS_FY2024_25 : List Slab :=
  [(some 300000, 0), (some 700000, 5/100), (some 1000000, 10/100),
   (some 1200000, 15/100), (some 1500000, 20/100), (none, 30/100)]

def NEW_REGIME_SLABS_FY2025_26 : List Slab :=
  [(some 400000, 0), (some 800000, 5/100), (some 1200000, 10/100),
   (some 1600000, 15/100), (some 2000000, 20/100), (some 2400000, 25/100),
   (none, 30/100)]

def OLD_REGIME_SLABS_BELOW_60 : List Slab :=
  [(some 250000, 0), (some 500000, 5/100), (some 1000000, 20/100),
   (none, 30/100)]

def OLD_REGIME_SLABS_SENIOR : List Slab :=
  [(some 300000, 0), (some 500000, 5/100), (some 1000000, 20/100),
   (none, 30/100)]

def OLD_REGIME_SLABS_SUPER_SENIOR : List Slab :=
  [(some 500000, 0), (some 1000000, 20/100), (none, 30/100)]

def CESS_RATE : ℚ := 4/100

/-- STANDARD_DEDUCTION table: `fy ↦ (old, new)`; unknown year ↦ `none`. -/
def STANDARD_DEDUCTION (fy : String) : Option (ℚ × ℚ) :=
  if fy = "2024-25" then some (50000, 75000)
  else if fy = "2025-26" then some (75000, 75000)
  else none

/-- REBATE_87A table: `(fy, regime) ↦ (income_limit, max_rebate)`. -/
def REBATE_87A (fy regime : String) : Option (ℚ × ℚ) :=
  if fy = "2024-25" then
    if regime = "old" then some (500000, 12500)
    else if regime = "new" then some (700000, 25000)
    else none
  else if fy = "2025-26" then
    if regime = "old" then some (500000, 12500)
    else if regime = "new" then some (1200000, 60000)
    else none
  else none

def SURCHARGE_SLABS_OLD : List Slab :=
  [(some 5000000, 0), (some 10000000, 10/100), (some 20000000, 15/100),
   (some 50000000, 25/100), (none, 37/100)]

def SURCHARGE_SLABS_NEW : List Slab :=
  [(some 5000000, 0), (some 10000000, 10/100), (some 20000000, 15/100),
   (some 50000000, 25/100), (none, 25/100)]

def LIMIT_80C : ℚ := 150000
def LIMIT_80CCD_1B : ℚ := 50000
def LIMIT_80D_SELF_BELOW_60 : ℚ := 25000
def LIMIT_80D_SELF_SENIOR : ℚ := 50000
def LIMIT_80D_PARENTS_BELOW_60 : ℚ := 25000
def LIMIT_80D_PARENTS_SENIOR : ℚ := 50000
def LIMIT_24B_SELF_OCCUPIED : ℚ := 200000
def HRA_METRO_PERCENT : ℚ := 50/100
def HRA_NON_METRO_PERCENT : ℚ := 40/100
def HRA_RENT_MINUS_BASIC_PERCENT : ℚ := 10/100
def LTCG_EXEMPTION : ℚ := 125000
def LTCG_RATE : ℚ := 125/1000
def STCG_RATE : ℚ := 20/100

-- ── Core tax functions (taxUtils.js) ───────────────────────────────────

/-- Loop body of `computeTaxOnSlabs`: walks the slab rows carrying
`prevLimit`.  The `none` (Infinity) row absorbs the whole remainder, after
which the source loop breaks. -/
def slabTaxAux (income : ℚ) (prevLimit : ℚ) : List Slab → ℚ
  | [] => 0
  | (upper, rate) :: rest =>
    if income ≤ prevLimit then 0
    else
      match upper with
      | some u => (min income u - prevLimit) * rate + slabTaxAux income u rest
      | none => (income - prevLimit) * rate

/-- Progressive slab application: base tax before rebate, surcharge and
cess (`computeTaxOnSlabs` of taxUtils.js). -/
def computeTaxOnSlabs (taxableIncome : ℚ) (slabs : List Slab) : ℚ :=
  slabTaxAux taxableIncome 0 slabs

/-- Health and education cess: `Math.round(tax * CESS_RATE)`. -/
def applyCess (tax : ℚ) : ℚ := jround (tax * CESS_RATE)

/-- Section 87A rebate (`apply87aRebate` of taxUtils.js): a cliff.  If the
`(fy, regime)` pair has a table entry and income is at or below the limit,
subtract `min(tax, max_rebate)` and round; otherwise return the tax
unchanged. -/
def apply87aRebate (tax taxableIncome : ℚ) (regime fy : String) : ℚ :=
  match REBATE_87A fy regime with
  | some info =>
    if taxableIncome ≤ info.1 then jround (tax - min tax info.2) else tax
  | none => tax

/-- Loop of `getSurcharge` locating the slab of `taxableIncome`: returns
`(rate, prevThreshold, prevRate)` exactly as the accumulating JS loop
does. -/
def findSurchargeSlab (income prevThr prevRate : ℚ) : List Slab → ℚ × ℚ × ℚ
  | [] => (0, prevThr, prevRate)
  | (upper, r) :: rest =>
    match upper with
    | some u =>
      if income ≤ u then (r, prevThr, prevRate)
      else findSurchargeSlab income u r rest
    | none => (r, prevThr, prevRate)

/-- Surcharge with marginal relief (`getSurcharge` of taxUtils.js). -/
def getSurcharge (taxableIncome baseTax : ℚ)
    (surchargeSlabs taxSlabs : List Slab) : ℚ :=
  let fs := findSurchargeSlab taxableIncome 0 0 surchargeSlabs
  let rate := fs.1
  let prevThreshold := fs.2.1
  let prevRate := fs.2.2
  if rate = 0 then 0
  else
    let rawSurcharge := baseTax * rate
    let taxAtThreshold := computeTaxOnSlabs prevThreshold taxSlabs
    let surchargeAtThreshold := taxAtThreshold * prevRate
    let totalAtThreshold := taxAtThreshold + surchargeAtThreshold
    let excessIncome := taxableIncome - prevThreshold
    let maxTotal := totalAtThreshold + excessIncome
    let rawTotal := baseTax + rawSurcharge
    if maxTotal < rawTotal then jround (max (maxTotal - baseTax) 0)
    else jround rawSurcharge

/-- Loop of `getMarginalRate`: the fall-through assignment keeps the rate
of each passed slab, so income beyond every finite limit gets the last
rate. -/
def marginalRateAux (income acc : ℚ) : List Slab → ℚ
  | [] => acc
  | (upper, r) :: rest =>
    match upper with
    | some u => if income ≤ u then r else marginalRateAux income r rest
    | none => r

/-- Marginal slab rate at an income level (`getMarginalRate`). -/
def getMarginalRate (taxableIncome : ℚ) (regime fy ageCategory : String) : ℚ :=
  let slabs :=
    if regime = "new" then
      if fy = "2025-26" then NEW_REGIME_SLABS_FY2025_26
      else NEW_REGIME_SLABS_FY2024_25
    else if ageCategory = "super_senior" then OLD_REGIME_SLABS_SUPER_SENIOR
    else if ageCategory = "senior" then OLD_REGIME_SLABS_SENIOR
    else OLD_REGIME_SLABS_BELOW_60
  marginalRateAux taxableIncome 0 slabs

/-- Breakdown returned by the two full-pipeline tax calculators. -/
structure TaxBreakdown where
  taxable_income : ℚ
  base_tax : ℚ
  rebate_87a : ℚ
  tax_after_rebate : ℚ
  surcharge : ℚ
  cess : ℚ
  total_tax : ℚ
deriving DecidableEq

/-- Full new-regime pipeline (`calculateNewRegimeTax`); an unknown
financial year selects the FY 2024-25 slabs. -/
def calculateNewRegimeTax (taxableIncome : ℚ) (fy : String) : TaxBreakdown :=
  let slabs :=
    if fy = "2025-26" then NEW_REGIME_SLABS_FY2025_26
    else NEW_REGIME_SLABS_FY2024_25
  let baseTax := computeTaxOnSlabs taxableIncome slabs
  let taxAfterRebate := apply87aRebate baseTax taxableIncome "new" fy
  let surcharge := getSurcharge taxableIncome taxAfterRebate SURCHARGE_SLABS_NEW slabs
  let cess := applyCess (taxAfterRebate + surcharge)
  { taxable_income := taxableIncome
    base_tax := jround baseTax
    rebate_87a := jround (baseTax - taxAfterRebate)
    tax_after_rebate := taxAfterRebate
    surcharge := surcharge
    cess := cess
    total_tax := jround (taxAfterRebate + surcharge + cess) }

/-- Full old-regime pipeline (`calculateOldRegimeTax`); the slab table is
selected by the age category string. -/
def calculateOldRegimeTax (taxableIncome : ℚ) (fy ageCategory : String) : TaxBreakdown :=
  let slabs :=
    if ageCategory = "super_senior" then OLD_REGIME_SLABS_SUPER_SENIOR
    else if ageCategory = "senior" then OLD_REGIME_SLABS_SENIOR
    else OLD_REGIME_SLABS_BELOW_60
  let baseTax := computeTaxOnSlabs taxableIncome slabs
  let taxAfterRebate := apply87aRebate baseTax taxableIncome "old" fy
  let surcharge := getSurcharge taxableIncome taxAfterRebate SURCHARGE_SLABS_OLD slabs
  let cess := applyCess (taxAfterRebate + surcharge)
  { taxable_income := taxableIncome
    base_tax := jround baseTax
    rebate_87a := jround (baseTax - taxAfterRebate)
    tax_after_rebate := taxAfterRebate
    surcharge := surcharge
    cess := cess
    total_tax := jround (taxAfterRebate + surcharge + cess) }

/-- HRA exemption (`calculateHraExemption`):
`max(min(A, min(B, C)), 0)`. -/
def calculateHraExemption (basicAnnual hraReceivedAnnual rentPaidAnnual : ℚ)
    (isMetro : Bool) : ℚ :=
  let optionA := hraReceivedAnnual
  let optionB := rentPaidAnnual - HRA_RENT_MINUS_BASIC_PERCENT * basicAnnual
  let optionC := (if isMetro then HRA_METRO_PERCENT else HRA_NON_METRO_PERCENT) * basicAnnual
  max (min optionA (min optionB optionC)) 0

-- ── Salary profile and taxable-income derivation (models.js, taxUtils.js) ──

/-- Metro cities for HRA (models.js METRO_CITIES). -/
def METRO_CITIES : List String := ["mumbai", "delhi", "kolkata", "chennai"]

/-- SalaryProfile (models.js createSalaryProfile): all amounts are annual
rupees. -/
structure SalaryProfile where
  financial_year : String
  employee_name : String
  pan : String
  employer_name : String
  gross_salary : ℚ
  basic_salary : ℚ
  hra_received : ℚ
  special_allowance : ℚ
  lta : ℚ
  bonus : ℚ
  other_salary : ℚ
  hra_exemption : ℚ
  lta_exemption : ℚ
  other_exemptions : ℚ
  standard_deduction : ℚ
  professional_tax : ℚ
  deduction_80c : ℚ
  deduction_80ccc : ℚ
  deduction_80ccd_1 : ℚ
  deduction_80ccd_1b : ℚ
  deduction_80ccd_2 : ℚ
  deduction_80d : ℚ
  deduction_80e : ℚ
  deduction_80g : ℚ
  deduction_80tta : ℚ
  deduction_24b : ℚ
  other_deductions : ℚ
  taxable_income : ℚ
  tax_payable : ℚ
  cess : ℚ
  total_tax_paid : ℚ
  regime : String
  city : String
  monthly_rent : ℚ
  epf_employee_contribution : ℚ
deriving DecidableEq

/-- ASCII lowercase map, the JS `toLowerCase` on the city tokens this app
uses (all ASCII). -/
def lowerString (s : String) : String := ⟨s.data.map Char.toLower⟩

/-- Computed property `is_metro` of a profile. -/
def SalaryProfile.is_metro (s : SalaryProfile) : Bool :=
  METRO_CITIES.contains (lowerString s.city)

/-- Computed property `total_exemptions`. -/
def SalaryProfile.total_exemptions (s : SalaryProfile) : ℚ :=
  s.hra_exemption + s.lta_exemption + s.other_exemptions

/-- New-regime taxable income (`computeNewRegimeTaxableIncome`). -/
def computeNewRegimeTaxableIncome (salary : SalaryProfile) : ℚ :=
  let stdDed := ((STANDARD_DEDUCTION salary.financial_year).map Prod.snd).getD 75000
  max (salary.gross_salary - stdDed - salary.professional_tax - salary.deduction_80ccd_2) 0

/-- Override record for `computeOldRegimeTaxableIncome`; `none` means
use the Form-16 value from the profile. -/
structure OldOpts where
  hraExemption : Option ℚ
  total80c : Option ℚ
  total80d : Option ℚ
  total80ccd1b : Option ℚ
  total24b : Option ℚ
deriving DecidableEq

/-- Empty override record (JS `{}`). -/
def noOldOpts : OldOpts := ⟨none, none, none, none, none⟩

/-- Line-item breakdown returned by `computeOldRegimeTaxableIncome`. -/
structure OldBreakdown where
  gross_salary : ℚ
  hra_exemption : ℚ
  lta_exemption : ℚ
  other_exemptions : ℚ
  net_salary : ℚ
  standard_deduction : ℚ
  professional_tax : ℚ
  gross_total_income : ℚ
  deduction_80c : ℚ
  deduction_80ccd_1b : ℚ
  deduction_80ccd_2 : ℚ
  deduction_80d : ℚ
  deduction_24b : ℚ
  deduction_other : ℚ
  total_vi_a : ℚ
  taxable_income : ℚ
deriving DecidableEq

/-- Old-regime taxable income with optional what-if overrides
(`computeOldRegimeTaxableIncome` of taxUtils.js). -/
def computeOldRegimeTaxableIncome (salary : SalaryProfile) (opts : OldOpts) : OldBreakdown :=
  let stdDed := ((STANDARD_DEDUCTION salary.financial_year).map Prod.fst).getD 50000
  let hraExempt := opts.hraExemption.getD salary.hra_exemption
  let netSalary := salary.gross_salary - hraExempt - salary.lta_exemption - salary.other_exemptions
  let gti := netSalary - stdDed - salary.professional_tax
  let ded80c := opts.total80c.getD
    (min (salary.deduction_80c + salary.deduction_80ccc + salary.deduction_80ccd_1) LIMIT_80C)
  let ded80d := opts.total80d.getD salary.deduction_80d
  let ded80ccd1b := opts.total80ccd1b.getD salary.deduction_80ccd_1b
  let ded80ccd2 := salary.deduction_80ccd_2
  let ded24b := match opts.total24b with
    | some v => min v LIMIT_24B_SELF_OCCUPIED
    | none => min salary.deduction_24b LIMIT_24B_SELF_OCCUPIED
  let dedOther := salary.deduction_80e + salary.deduction_80g + salary.deduction_80tta +
    salary.other_deductions
  let totalVia := ded80c + ded80ccd1b + ded80ccd2 + ded80d + ded24b + dedOther
  { gross_salary := salary.gross_salary
    hra_exemption := hraExempt
    lta_exemption := salary.lta_exemption
    other_exemptions := salary.other_exemptions
    net_salary := netSalary
    standard_deduction := stdDed
    professional_tax := salary.professional_tax
    gross_total_income := gti
    deduction_80c := ded80c
    deduction_80ccd_1b := ded80ccd1b
    deduction_80ccd_2 := ded80ccd2
    deduction_80d := ded80d
    deduction_24b := ded24b
    deduction_other := dedOther
    total_vi_a := totalVia
    taxable_income := max (gti - totalVia) 0 }

-- ── Redemption planner (redemptionCalculator.js) ───────────────────────

/-- One-FY scenario of the redemption planner. -/
structure RedemptionOneFy where
  taxable : ℚ
  tax : ℚ
  effective_rate : ℚ
  exemption_used : ℚ
deriving DecidableEq

/-- Split-FY scenario of the redemption planner. -/
structure RedemptionSplitFy where
  sell_fy1 : ℚ
  tax_fy1 : ℚ
  sell_fy2 : ℚ
  taxable_fy2 : ℚ
  tax_fy2 : ℚ
  total_tax : ℚ
  effective_rate : ℚ
deriving DecidableEq

/-- Result record of `computeRedemptionTax`. -/
structure RedemptionResult where
  planned_ltcg : ℚ
  one_fy : RedemptionOneFy
  split_fy : RedemptionSplitFy
  split_beneficial : Bool
  split_savings : ℚ
  exemption_remaining : ℚ
  exemption_next_fy : ℚ
deriving DecidableEq

/-- Redemption planner (`computeRedemptionTax`): tax on a planned LTCG
sale, one-FY versus split across two FYs.  `none` option values take the
full statutory exemption, as the JS `??` defaults do. -/
def computeRedemptionTax (plannedLtcg : ℚ)
    (exemptionRemainingOpt exemptionNextFyOpt : Option ℚ) : RedemptionResult :=
  let ltcg := max plannedLtcg 0
  let exemptionRemaining := exemptionRemainingOpt.getD LTCG_EXEMPTION
  let exemptionNextFy := exemptionNextFyOpt.getD LTCG_EXEMPTION
  let taxRate := LTCG_RATE * (1 + CESS_RATE)
  let oneFyTaxable := max (ltcg - exemptionRemaining) 0
  let oneFyTax := jround (oneFyTaxable * taxRate)
  let oneFyEffective := if 0 < ltcg then oneFyTax / ltcg else 0
  let sellFy1 := min ltcg exemptionRemaining
  let taxFy1 : ℚ := 0
  let remainingAfterFy1 := ltcg - sellFy1
  let taxableFy2 := max (remainingAfterFy1 - exemptionNextFy) 0
  let taxFy2 := jround (taxableFy2 * taxRate)
  let splitTotalTax := taxFy1 + taxFy2
  let splitEffective := if 0 < ltcg then splitTotalTax / ltcg else 0
  let splitSavings := oneFyTax - splitTotalTax
  { planned_ltcg := ltcg
    one_fy := ⟨oneFyTaxable, oneFyTax, oneFyEffective, min ltcg exemptionRemaining⟩
    split_fy := ⟨sellFy1, taxFy1, remainingAfterFy1, taxableFy2, taxFy2, splitTotalTax, splitEffective⟩
    split_beneficial := decide (0 < splitSavings)
    split_savings := splitSavings
    exemption_remaining := exemptionRemaining
    exemption_next_fy := exemptionNextFy }

-- ── Holdings (models.js) ───────────────────────────────────────────────

/-- Calendar date reduced to year and month; JS `Date.getMonth()` is
0-indexed, so March is month 2.  Only year and month are read by the
engine. -/
structure MDate where
  year : ℤ
  month : ℤ
deriving DecidableEq

/-- One portfolio holding (models.js createHolding). -/
structure Holding where
  security_name : String
  security_type : String
  purchase_date : MDate
  purchase_price : ℚ
  quantity : ℚ
  current_price : ℚ
deriving DecidableEq

/-- JS `Math.round(x * 100) / 100`: round to two decimals. -/
def roundTo2 (x : ℚ) : ℚ := jround (x * 100) / 100

/-- Computed property `total_cost`. -/
def Holding.total_cost (h : Holding) : ℚ := roundTo2 (h.purchase_price * h.quantity)

/-- Computed property `current_value`. -/
def Holding.current_value (h : Holding) : ℚ := roundTo2 (h.current_price * h.quantity)

/-- Computed property `unrealized_gain`. -/
def Holding.unrealized_gain (h : Holding) : ℚ :=
  roundTo2 (h.current_value - h.total_cost)

/-- Whole-calendar-month holding period (models.js `holdingMonths`). -/
def Holding.holdingMonths (h : Holding) (asOf : MDate) : ℤ :=
  (asOf.year - h.purchase_date.year) * 12 + (asOf.month - h.purchase_date.month)

/-- Long-term test (models.js `isLongTerm`): equity family needs more
than 12 months, everything else more than 24. -/
def Holding.isLongTerm (h : Holding) (asOf : MDate) : Bool :=
  let months := h.holdingMonths asOf
  if h.security_type ∈ ["equity_share", "equity_mf", "elss"] then
    decide (12 < months)
  else
    decide (24 < months)

/-- Holdings portfolio (models.js createHoldings). -/
structure Holdings where
  holdings : List Holding
  realized_stcg_this_fy : ℚ
  realized_ltcg_this_fy : ℚ
deriving DecidableEq

/-- Empty portfolio, `createHoldings({})`. -/
def emptyHoldings : Holdings := ⟨[], 0, 0⟩

-- ── Finding model (models.js) ──────────────────────────────────────────

/-- Tagged rendition of the one-line `finding` message of each check;
one constructor per distinct message template of the source, carrying the
numeric values interpolated into the template. -/
inductive FText where
  | switchSavesMsg (savings : ℚ)
  | newRegimeOptimalMsg (delta : ℚ)
  | eightyCFullMsg (current : ℚ)
  | eightyCGapMsg (gap epf : ℚ)
  | eightyDFullMsg (current : ℚ)
  | parentsPolicyMsg (premium taxSaved : ℚ)
  | additionalEightyDMsg (amount : ℚ)
  | noHraOrRentMsg
  | rentTooLowMsg
  | hraClaimedMsg (current : ℚ)
  | hraUnlockMsg (monthlyRent current : ℚ) (regime : String) (optimal : ℚ)
  | noHoldingsMsg
  | noHarvestMsg
  | harvestableMsg (unrealizedLtcg futureTaxSaved : ℚ)
  | npsFullMsg (current : ℚ)
  | npsSavesMsg (gap taxSaved : ℚ)
  | noHomeLoanMsg
  | homeLoanSavesMsg (capped displaySaving : ℚ)
  | notApplicableUnderNewRegimeMsg (wouldSave : ℚ)
deriving DecidableEq

/-- Holding-period alert entry of the capital-gains check (the prose
`advice` string is a pure function of `months_to_ltcg` and is not
modelled). -/
structure HoldingAlert where
  security : String
  months_held : ℤ
  months_to_ltcg : ℤ
  gain : ℚ
  stcg_tax : ℚ
deriving DecidableEq

/-- Unrealized-loss entry of the capital-gains check. -/
structure LossEntry where
  name : String
  loss : ℚ
  is_long_term : Bool
deriving DecidableEq

/-- Gaps that need filling, from the regime comparator (`deductions_needed`
object); a `none` field is an absent key. -/
structure DeductionsNeeded where
  hra_exemption : Option ℚ
  section_80c : Option ℚ
  section_80c_gap : Option ℚ
  section_80d : Option ℚ
  section_80ccd_1b : Option ℚ
  section_24b : Option ℚ
deriving DecidableEq

/-- Check-specific `details` dictionary: one constructor per distinct
shape produced by a `createFinding` call site of the source.  List-valued
keys that the source omits when empty are carried as possibly-empty
lists. -/
inductive Details where
  | regimeDetails (new_regime_tax new_regime_taxable old_regime_tax old_regime_taxable : ℚ)
      (recommended_regime : String) (old_regime_breakdown : OldBreakdown)
      (deductions_needed : Option DeductionsNeeded)
  | d80cOptimized (epf_contribution current_80c_total limit gap : ℚ)
  | d80cOpportunity (epf_contribution current_80c_total limit gap marginal_rate tax_saved_component : ℚ)
  | d80dOptimized (self_family_claimed self_family_limit parents_limit total_limit : ℚ)
  | d80dOpportunity (self_family_claimed self_family_limit parents_claimed parents_limit : ℚ)
      (parents_senior : Bool) (recommended_premium marginal_rate tax_saved_component : ℚ)
  | hraNA (hra_received monthly_rent : ℚ)
  | hraTooLow (rent_annual hra_received optimal_exemption : ℚ)
  | hraOptimized (rent_annual hra_received current_exemption optimal_exemption : ℚ)
  | hraOpportunity (rent_annual hra_received optimal_exemption current_exemption : ℚ)
      (is_metro : Bool) (option_a_hra_received option_b_rent_minus_basic option_c_percent_basic : ℚ)
  | cgNA
  | cgOptimized (unrealized_ltcg unrealized_stcg ltcg_exemption_limit : ℚ)
  | cgOpportunity (unrealized_ltcg unrealized_stcg realized_ltcg_this_fy ltcg_exemption_limit
      exemption_used exemption_remaining future_tax_saved : ℚ)
      (holdings_to_harvest : List String)
      (holding_period_alerts : List HoldingAlert)
      (unrealized_losses : List LossEntry)
  | npsOptimized (current_nps_1b limit_1b gap : ℚ)
  | npsOpportunity (current_nps_1b limit_1b gap marginal_rate tax_saved_component : ℚ)
  | hlNA (home_loan_interest : ℚ)
  | hlOpportunity (home_loan_interest capped_amount limit marginal_rate display_saving : ℚ)
deriving DecidableEq

/-- Finding record (models.js createFinding).  The prose-only fields
`action` and `explanation` are not modelled; `finding` is the tagged
message. -/
structure Finding where
  check_id : String
  check_name : String
  status : String
  finding : FText
  savings : ℚ
  deadline : String
  confidence : String
  details : Details
deriving DecidableEq

-- ── Check 1: regime comparator (regimeComparator.js) ───────────────────

/-- Options record passed to `checkRegime` and `check80d`. -/
structure CheckOpts where
  parentsSenior : Bool
  selfSenior : Bool
deriving DecidableEq

/-- Regime arbitrage check (`checkRegime`): new-regime tax versus a fully
optimized old-regime scenario. -/
def checkRegime (salary : SalaryProfile) (opts : CheckOpts) : Finding :=
  let parentsSenior := opts.parentsSenior
  let selfSenior := opts.selfSenior
  let ageCategory := if selfSenior then "senior" else "below_60"
  let fy := salary.financial_year
  let newTaxable := computeNewRegimeTaxableIncome salary
  let newTaxResult := calculateNewRegimeTax newTaxable fy
  let newTax := newTaxResult.total_tax
  let optimalHra :=
    if 0 < salary.hra_received ∧ 0 < salary.monthly_rent then
      calculateHraExemption salary.basic_salary salary.hra_received
        (salary.monthly_rent * 12) salary.is_metro
    else 0
  let optimal80c := LIMIT_80C
  let selfLimit := if selfSenior then LIMIT_80D_SELF_SENIOR else LIMIT_80D_SELF_BELOW_60
  let parentsLimit := if parentsSenior then LIMIT_80D_PARENTS_SENIOR else LIMIT_80D_PARENTS_BELOW_60
  let optimal80dTarget := if selfSenior then selfLimit + parentsLimit else parentsLimit
  let optimal80d := max salary.deduction_80d optimal80dTarget
  let optimalNps1b := LIMIT_80CCD_1B
  let optimal24b := min salary.deduction_24b LIMIT_24B_SELF_OCCUPIED
  let oldBreakdown := computeOldRegimeTaxableIncome salary
    ⟨some optimalHra, some optimal80c, some optimal80d, some optimalNps1b, some optimal24b⟩
  let oldTaxable := oldBreakdown.taxable_income
  let oldTaxResult := calculateOldRegimeTax oldTaxable fy ageCategory
  let oldTax := oldTaxResult.total_tax
  let savings := newTax - oldTax
  let recommended := if 0 < savings then "old" else "new"
  let current80c := salary.deduction_80c + salary.deduction_80ccc + salary.deduction_80ccd_1
  let gap80c := LIMIT_80C - current80c
  let deductionsNeeded : DeductionsNeeded :=
    { hra_exemption := if salary.hra_exemption < optimalHra then some optimalHra else none
      section_80c := if 0 < gap80c then some optimal80c else none
      section_80c_gap := if 0 < gap80c then some gap80c else none
      section_80d := if salary.deduction_80d < optimal80d then some optimal80d else none
      section_80ccd_1b := if salary.deduction_80ccd_1b < optimalNps1b then some optimalNps1b else none
      section_24b := if 0 < optimal24b then some optimal24b else none }
  if 0 < savings then
    { check_id := "regime_arbitrage"
      check_name := "Tax Regime Optimization"
      status := "opportunity"
      finding := FText.switchSavesMsg savings
      savings := savings
      deadline := "July 31 (ITR filing) - but investments needed before March 31"
      confidence := "definite"
      details := Details.regimeDetails newTax newTaxable oldTax oldTaxable recommended
        oldBreakdown (some deductionsNeeded) }
  else
    { check_id := "regime_arbitrage"
      check_name := "Tax Regime Optimization"
      status := "optimized"
      finding := FText.newRegimeOptimalMsg (-savings)
      savings := 0
      deadline := "N/A"
      confidence := "definite"
      details := Details.regimeDetails newTax newTaxable oldTax oldTaxable recommended
        oldBreakdown none }

-- ── Check 2: 80C gap (eightyCGap.js) ───────────────────────────────────

/-- Section 80C gap check (`check80c`). -/
def check80c (salary : SalaryProfile) : Finding :=
  let fy := salary.financial_year
  let current80c := min (salary.deduction_80c + salary.deduction_80ccc + salary.deduction_80ccd_1)
    LIMIT_80C
  let epf := salary.epf_employee_contribution
  let gap := max (LIMIT_80C - current80c) 0
  if gap ≤ 0 then
    { check_id := "80c_gap"
      check_name := "Section 80C Gap"
      status := "optimized"
      finding := FText.eightyCFullMsg current80c
      savings := 0
      deadline := "N/A"
      confidence := "definite"
      details := Details.d80cOptimized epf current80c LIMIT_80C 0 }
  else
    let oldBreakdown := computeOldRegimeTaxableIncome salary noOldOpts
    let gti := oldBreakdown.gross_total_income
    let marginal := getMarginalRate gti "old" fy "below_60"
    let taxSaved := jround (gap * marginal * (1 + CESS_RATE))
    { check_id := "80c_gap"
      check_name := "Section 80C Gap"
      status := "opportunity"
      finding := FText.eightyCGapMsg gap epf
      savings := taxSaved
      deadline := "March 31 (for FY " ++ fy ++ " deduction)"
      confidence := "definite"
      details := Details.d80cOpportunity epf current80c LIMIT_80C gap marginal taxSaved }

-- ── Check 3: 80D health insurance (eightyDCheck.js) ────────────────────

/-- Section 80D check (`check80d`). -/
def check80d (salary : SalaryProfile) (opts : CheckOpts) : Finding :=
  let parentsSenior := opts.parentsSenior
  let selfSenior := opts.selfSenior
  let fy := salary.financial_year
  let current80d := salary.deduction_80d
  let selfLimit := if selfSenior then LIMIT_80D_SELF_SENIOR else LIMIT_80D_SELF_BELOW_60
  let parentsLimit := if parentsSenior then LIMIT_80D_PARENTS_SENIOR else LIMIT_80D_PARENTS_BELOW_60
  let totalLimit := selfLimit + parentsLimit
  if totalLimit ≤ current80d then
    { check_id := "80d_check"
      check_name := "Health Insurance (Section 80D)"
      status := "optimized"
      finding := FText.eightyDFullMsg current80d
      savings := 0
      deadline := "N/A"
      confidence := "definite"
      details := Details.d80dOptimized current80d selfLimit parentsLimit totalLimit }
  else
    let additional80d := totalLimit - current80d
    let recommendedPremium := if current80d = 0 then parentsLimit else additional80d
    let oldBreakdown := computeOldRegimeTaxableIncome salary noOldOpts
    let gti := oldBreakdown.gross_total_income
    let marginal := getMarginalRate gti "old" fy "below_60"
    let taxSaved := jround (recommendedPremium * marginal * (1 + CESS_RATE))
    { check_id := "80d_check"
      check_name := "Health Insurance (Section 80D)"
      status := "opportunity"
      finding := if current80d = 0 then FText.parentsPolicyMsg recommendedPremium taxSaved
        else FText.additionalEightyDMsg additional80d
      savings := taxSaved
      deadline := "March 31 (for FY " ++ fy ++ " deduction)"
      confidence := "definite"
      details := Details.d80dOpportunity current80d selfLimit 0 parentsLimit parentsSenior
        recommendedPremium marginal taxSaved }

-- ── Check 4: HRA optimizer (hraOptimizer.js) ───────────────────────────

/-- HRA exemption check (`checkHra`); display only, savings always 0. -/
def checkHra (salary : SalaryProfile) : Finding :=
  if salary.hra_received ≤ 0 ∨ salary.monthly_rent ≤ 0 then
    { check_id := "hra_optimizer"
      check_name := "HRA Exemption"
      status := "not_applicable"
      finding := FText.noHraOrRentMsg
      savings := 0
      deadline := "N/A"
      confidence := "definite"
      details := Details.hraNA salary.hra_received salary.monthly_rent }
  else
    let rentAnnual := salary.monthly_rent * 12
    let optimalExemption := calculateHraExemption salary.basic_salary salary.hra_received
      rentAnnual salary.is_metro
    let currentExemption := salary.hra_exemption
    let optionA := salary.hra_received
    let optionB := rentAnnual - 10/100 * salary.basic_salary
    let metroPct : ℚ := if salary.is_metro then 50/100 else 40/100
    let optionC := metroPct * salary.basic_salary
    if optimalExemption ≤ 0 then
      { check_id := "hra_optimizer"
        check_name := "HRA Exemption"
        status := "not_applicable"
        finding := FText.rentTooLowMsg
        savings := 0
        deadline := "N/A"
        confidence := "definite"
        details := Details.hraTooLow rentAnnual salary.hra_received 0 }
    else if 0 < currentExemption ∧ optimalExemption ≤ currentExemption then
      { check_id := "hra_optimizer"
        check_name := "HRA Exemption"
        status := "optimized"
        finding := FText.hraClaimedMsg currentExemption
        savings := 0
        deadline := "N/A"
        confidence := "definite"
        details := Details.hraOptimized rentAnnual salary.hra_received currentExemption
          optimalExemption }
    else
      { check_id := "hra_optimizer"
        check_name := "HRA Exemption"
        status := "opportunity"
        finding := FText.hraUnlockMsg salary.monthly_rent currentExemption salary.regime
          optimalExemption
        savings := 0
        deadline := "Include in ITR filing by July 31"
        confidence := "definite"
        details := Details.hraOpportunity rentAnnual salary.hra_received optimalExemption
          currentExemption salary.is_metro optionA optionB optionC }

-- ── Check 5: capital gains (ltcgScanner.js) ────────────────────────────

/-- Capital-gains check (`checkCapitalGains`).  `today` stands for the
ambient `new Date()` used only when `asOfOpt` is absent: the default
reference date is the coming March 31. -/
def checkCapitalGains (holdings : Holdings) (asOfOpt : Option MDate) (today : MDate) : Finding :=
  let asOf := match asOfOpt with
    | some d => d
    | none => if today.month < 3 then ⟨today.year, 2⟩ else ⟨today.year + 1, 2⟩
  if holdings.holdings = [] then
    { check_id := "capital_gains"
      check_name := "Capital Gains Optimization"
      status := "not_applicable"
      finding := FText.noHoldingsMsg
      savings := 0
      deadline := "N/A"
      confidence := "definite"
      details := Details.cgNA }
  else
    let ltcgHoldings := holdings.holdings.filter
      (fun h => h.isLongTerm asOf && decide (0 < h.unrealized_gain))
    let stcgHoldings := holdings.holdings.filter (fun h => ! h.isLongTerm asOf)
    let holdingPeriodAlerts := (stcgHoldings.filter
        (fun h => decide (10 ≤ h.holdingMonths asOf) && decide (h.holdingMonths asOf ≤ 12) &&
          decide (0 < h.unrealized_gain))).map
      (fun h => HoldingAlert.mk h.security_name (h.holdingMonths asOf)
        (13 - h.holdingMonths asOf) h.unrealized_gain
        (jround (h.unrealized_gain * STCG_RATE * (1 + CESS_RATE))))
    let totalUnrealizedLtcg := (ltcgHoldings.map Holding.unrealized_gain).sum
    let totalUnrealizedStcg := ((stcgHoldings.filter
      (fun h => decide (0 < h.unrealized_gain))).map Holding.unrealized_gain).sum
    let exemptionRemaining := max (LTCG_EXEMPTION - holdings.realized_ltcg_this_fy) 0
    let harvestableLtcg := min totalUnrealizedLtcg exemptionRemaining
    let futureTaxSaved := jround (harvestableLtcg * LTCG_RATE * (1 + CESS_RATE))
    let holdingsToHarvest := (ltcgHoldings.filter
      (fun h => decide (0 < h.unrealized_gain))).map Holding.security_name
    let unrealizedLosses := (holdings.holdings.filter
        (fun h => decide (h.unrealized_gain < 0))).map
      (fun h => LossEntry.mk h.security_name (- h.unrealized_gain) (h.isLongTerm asOf))
    if harvestableLtcg ≤ 0 ∧ holdingPeriodAlerts = [] then
      { check_id := "capital_gains"
        check_name := "Capital Gains Optimization"
        status := "optimized"
        finding := FText.noHarvestMsg
        savings := 0
        deadline := "N/A"
        confidence := "definite"
        details := Details.cgOptimized totalUnrealizedLtcg totalUnrealizedStcg LTCG_EXEMPTION }
    else
      { check_id := "capital_gains"
        check_name := "Capital Gains Optimization"
        status := "opportunity"
        finding := FText.harvestableMsg totalUnrealizedLtcg futureTaxSaved
        savings := futureTaxSaved
        deadline := "March 31 (end of financial year)"
        confidence := "definite"
        details := Details.cgOpportunity totalUnrealizedLtcg totalUnrealizedStcg
          holdings.realized_ltcg_this_fy LTCG_EXEMPTION harvestableLtcg
          (exemptionRemaining - harvestableLtcg) futureTaxSaved holdingsToHarvest
          holdingPeriodAlerts unrealizedLosses }

-- ── Check 6: NPS 80CCD(1B) (npsCheck.js) ───────────────────────────────

/-- NPS 80CCD(1B) check (`checkNps`). -/
def checkNps (salary : SalaryProfile) : Finding :=
  let fy := salary.financial_year
  let currentNps1b := salary.deduction_80ccd_1b
  let gap := max (LIMIT_80CCD_1B - currentNps1b) 0
  if gap ≤ 0 then
    { check_id := "nps_check"
      check_name := "NPS Tax Benefit (80CCD(1B))"
      status := "optimized"
      finding := FText.npsFullMsg currentNps1b
      savings := 0
      deadline := "N/A"
      confidence := "definite"
      details := Details.npsOptimized currentNps1b LIMIT_80CCD_1B 0 }
  else
    let oldBreakdown := computeOldRegimeTaxableIncome salary noOldOpts
    let gti := oldBreakdown.gross_total_income
    let marginal := getMarginalRate gti "old" fy "below_60"
    let taxSaved := jround (gap * marginal * (1 + CESS_RATE))
    { check_id := "nps_check"
      check_name := "NPS Tax Benefit (80CCD(1B))"
      status := "opportunity"
      finding := FText.npsSavesMsg gap taxSaved
      savings := taxSaved
      deadline := "March 31 (for FY " ++ fy ++ " deduction)"
      confidence := "definite"
      details := Details.npsOpportunity currentNps1b LIMIT_80CCD_1B gap marginal taxSaved }

-- ── Check 7: home loan 24b (homeLoanCheck.js) ──────────────────────────

/-- Home-loan interest check (`checkHomeLoan`); display only, savings
always 0. -/
def checkHomeLoan (salary : SalaryProfile) : Finding :=
  let interestPaid := salary.deduction_24b
  if interestPaid ≤ 0 then
    { check_id := "home_loan_check"
      check_name := "Home Loan Interest (Section 24b)"
      status := "not_applicable"
      finding := FText.noHomeLoanMsg
      savings := 0
      deadline := "N/A"
      confidence := "definite"
      details := Details.hlNA 0 }
  else
    let fy := salary.financial_year
    let capped := min interestPaid LIMIT_24B_SELF_OCCUPIED
    let oldBreakdown := computeOldRegimeTaxableIncome salary noOldOpts
    let gti := oldBreakdown.gross_total_income
    let marginal := getMarginalRate gti "old" fy "below_60"
    let displaySaving := jround (capped * marginal * (1 + CESS_RATE))
    { check_id := "home_loan_check"
      check_name := "Home Loan Interest (Section 24b)"
      status := "opportunity"
      finding := FText.homeLoanSavesMsg capped displaySaving
      savings := 0
      deadline := "Include in ITR filing by July 31 (FY " ++ fy ++ ")"
      confidence := "definite"
      details := Details.hlOpportunity interestPaid capped LIMIT_24B_SELF_OCCUPIED marginal
        displaySaving }

-- ── Orchestrator (orchestrator.js) ─────────────────────────────────────

/-- Options record of `runAllChecks`.  The source reads only
`parentsSenior` and `cgAsOf`; `selfSenior` is carried to model the full
boundary options record. -/
structure Opts where
  parentsSenior : Bool
  selfSenior : Bool
  cgAsOf : Option MDate
deriving DecidableEq

/-- Regime-interdependency rewrite applied to each deduction-based check
when the recommendation is the new regime. -/
def suppressFinding (f : Finding) : Finding :=
  { f with
    savings := 0
    status := "not_applicable"
    finding := if 0 < f.savings then FText.notApplicableUnderNewRegimeMsg f.savings
      else f.finding }

/-- Recommended regime read out of the regime finding details, with the
`|| new` fallback of the source. -/
def recommendedOf (d : Details) : String :=
  match d with
  | Details.regimeDetails _ _ _ _ rec _ _ => rec
  | _ => "new"

/-- Stable insertion preserving non-increasing savings order. -/
def insertBySavingsDesc (f : Finding) : List Finding → List Finding
  | [] => [f]
  | g :: gs =>
    if g.savings ≤ f.savings then f :: g :: gs
    else g :: insertBySavingsDesc f gs

/-- Stable sort by savings, descending (`allChecks.sort((a, b) =>
b.savings - a.savings)`). -/
def sortBySavingsDesc : List Finding → List Finding
  | [] => []
  | f :: fs => insertBySavingsDesc f (sortBySavingsDesc fs)

/-- Tagged rendition of the summary lines of `generateSummary`. -/
inductive SText where
  | foundSavingsLine (total : ℚ) (name fy : String)
  | biggestOpportunityLine
  | optimizationCountLine (n : ℕ)
  | oppLine (check_name : String) (savings : ℚ)
  | wellOptimizedLine (fy : String)
deriving DecidableEq

/-- Plain-English summary (`generateSummary`), as tagged lines. -/
def generateSummary (salary : SalaryProfile) (checks : List Finding)
    (totalSavings : ℚ) (recommendedRegime : String) : List SText :=
  let opportunities := checks.filter (fun c => c.status == "opportunity")
  if 0 < totalSavings then
    [SText.foundSavingsLine totalSavings salary.employee_name salary.financial_year]
    ++ (if recommendedRegime = "old" ∧ salary.regime = "new" then
          [SText.biggestOpportunityLine]
        else [])
    ++ (if 0 < opportunities.length then
          SText.optimizationCountLine opportunities.length ::
            (opportunities.filter (fun o => decide (0 < o.savings))).map
              (fun o => SText.oppLine o.check_name o.savings)
        else [])
  else [SText.wellOptimizedLine salary.financial_year]

/-- Disclaimer copy attached to every report. -/
def DISCLAIMER_TEXT : String :=
  "This analysis is for informational purposes only and does not constitute " ++
  "tax advice. Please consult a qualified Chartered Accountant before making " ++
  "tax decisions. Tax laws are subject to change."

/-- Report record (models.js createTaxHawkResult). -/
structure TaxHawkResult where
  user_name : String
  financial_year : String
  current_regime : String
  recommended_regime : String
  total_savings : ℚ
  checks : List Finding
  summary : List SText
  disclaimer : String
deriving DecidableEq

/-- Orchestrator (`runAllChecks`): run the seven checks, apply the
regime-interdependency rewrite, total the savings without double
counting, sort and summarize.  `today` stands for the ambient clock
consulted only for the capital-gains default date. -/
def runAllChecks (salary : SalaryProfile) (holdings : Option Holdings) (opts : Opts)
    (today : MDate) : TaxHawkResult :=
  let parentsSenior := opts.parentsSenior
  let cgAsOf := opts.cgAsOf
  let hld := holdings.getD emptyHoldings
  let regimeResult := checkRegime salary ⟨parentsSenior, false⟩
  let result80c := check80c salary
  let result80d := check80d salary ⟨parentsSenior, false⟩
  let resultHra := checkHra salary
  let resultCg := checkCapitalGains hld cgAsOf today
  let resultNps := checkNps salary
  let resultHomeLoan := checkHomeLoan salary
  let recommendedRegime := recommendedOf regimeResult.details
  let allChecks :=
    if recommendedRegime = "new" then
      [regimeResult, suppressFinding result80c, suppressFinding result80d,
       suppressFinding resultHra, resultCg, suppressFinding resultNps,
       suppressFinding resultHomeLoan]
    else
      [regimeResult, result80c, result80d, resultHra, resultCg, resultNps, resultHomeLoan]
  let totalSavings := regimeResult.savings + resultCg.savings
  let sorted := sortBySavingsDesc allChecks
  { user_name := salary.employee_name
    financial_year := salary.financial_year
    current_regime := salary.regime
    recommended_regime := recommendedRegime
    total_savings := totalSavings
    checks := sorted
    summary := generateSummary salary sorted totalSavings recommendedRegime
    disclaimer := DISCLAIMER_TEXT }

-- ── Basic lemmas about the rounding helper ─────────────────────────────

theorem jround_le (q : ℚ) : jround q ≤ q + 1/2 := by
  unfold jround
  exact_mod_cast Int.floor_le (q + 1/2)

theorem jround_nonneg {q : ℚ} (h : 0 ≤ q) : 0 ≤ jround q := by
  unfold jround
  have : (0 : ℤ) ≤ ⌊q + 1/2⌋ := by
    rw [Int.le_floor]
    push_cast
    linarith
  exact_mod_cast this

theorem jround_mono {a b : ℚ} (h : a ≤ b) : jround a ≤ jround b := by
  unfold jround
  exact_mod_cast Int.floor_mono (by linarith : a + 1/2 ≤ b + 1/2)

theorem jround_eq_self {q : ℚ} (z : ℤ) (h : q = (z : ℚ)) : jround q = q := by
  subst h
  unfold jround
  norm_num

-- ── The sort is a permutation ──────────────────────────────────────────

theorem insertBySavingsDesc_perm (f : Finding) (l : List Finding) :
    (insertBySavingsDesc f l).Perm (f :: l) := by
  induction l with
  | nil => simp [insertBySavingsDesc]
  | cons g gs ih =>
    unfold insertBySavingsDesc
    split
    · exact List.Perm.refl _
    · exact (List.Perm.cons g ih).trans (List.Perm.swap f g gs)

theorem sortBySavingsDesc_perm (l : List Finding) :
    (sortBySavingsDesc l).Perm l := by
  induction l with
  | nil => simp [sortBySavingsDesc]
  | cons f fs ih =>
    unfold sortBySavingsDesc
    exact (insertBySavingsDesc_perm f (sortBySavingsDesc fs)).trans (List.Perm.cons f ih)

/-- Sum of savings is invariant under the report sort. -/
theorem sortBySavingsDesc_sum (l : List Finding) :
    ((sortBySavingsDesc l).map Finding.savings).sum = (l.map Finding.savings).sum :=
  ((sortBySavingsDesc_perm l).map Finding.savings).sum_eq

-- ── The marginal rate is never negative ────────────────────────────────

theorem marginalRateAux_nonneg (income acc : ℚ) (slabs : List Slab)
    (hacc : 0 ≤ acc) (hs : ∀ p ∈ slabs, 0 ≤ p.2) :
    0 ≤ marginalRateAux income acc slabs := by
  induction slabs generalizing acc with
  | nil => simpa [marginalRateAux] using hacc
  | cons p rest ih =>
    obtain ⟨upper, r⟩ := p
    have hr : 0 ≤ r := hs (upper, r) (List.mem_cons_self _ _)
    unfold marginalRateAux
    match upper with
    | some u =>
      simp only
      split
      · exact hr
      · exact ih r hr (fun q hq => hs q (List.mem_cons_of_mem _ hq))
    | none => simpa using hr

theorem getMarginalRate_nonneg (income : ℚ) (regime fy ageCategory : String) :
    0 ≤ getMarginalRate income regime fy ageCategory := by
  unfold getMarginalRate
  split_ifs <;>
    refine marginalRateAux_nonneg _ _ _ le_rfl ?_ <;>
    · intro p hp
      simp only [NEW_REGIME_SLABS_FY2024_25, NEW_REGIME_SLABS_FY2025_26,
        OLD_REGIME_SLABS_BELOW_60, OLD_REGIME_SLABS_SENIOR,
        OLD_REGIME_SLABS_SUPER_SENIOR, List.mem_cons, List.mem_singleton] at hp
      rcases hp with h | h | h | h | h | h | h <;> simp_all <;> norm_num


-- ── Savings sign facts for the seven checks ────────────────────────────

/-- Helper: nonnegativity of the savings of a two-branch finding. -/
theorem iteFinding_savings_nonneg (c : Prop) [Decidable c] (A B : Finding)
    (hA : c → 0 ≤ A.savings) (hB : ¬c → 0 ≤ B.savings) :
    0 ≤ (if c then A else B).savings := by
  split_ifs with hc
  exacts [hA hc, hB hc]

/-- Helper: positivity of the savings of a two-branch opportunity
finding. -/
theorem iteFinding_savings_pos (c : Prop) [Decidable c] (A B : Finding)
    (h : (if c then A else B).status = "opportunity")
    (hA : c → A.status = "opportunity" → 0 < A.savings)
    (hB : ¬c → B.status = "opportunity" → 0 < B.savings) :
    0 < (if c then A else B).savings := by
  split_ifs at h ⊢ with hc
  exacts [hA hc h, hB hc h]

/-- Helper: zero savings of a two-branch finding given its recommended
regime. -/
theorem iteFinding_rec_savings (c : Prop) [Decidable c] (A B : Finding)
    (h : recommendedOf (if c then A else B).details = "new")
    (hA : c → recommendedOf A.details = "new" → A.savings = 0)
    (hB : ¬c → recommendedOf B.details = "new" → B.savings = 0) :
    (if c then A else B).savings = 0 := by
  split_ifs at h ⊢ with hc
  exacts [hA hc h, hB hc h]

theorem checkHra_savings_zero (s : SalaryProfile) : (checkHra s).savings = 0 := by
  unfold checkHra
  dsimp only
  split_ifs <;> rfl

theorem checkHomeLoan_savings_zero (s : SalaryProfile) : (checkHomeLoan s).savings = 0 := by
  unfold checkHomeLoan
  dsimp only
  split_ifs <;> rfl

theorem check80c_savings_nonneg (s : SalaryProfile) : 0 ≤ (check80c s).savings := by
  unfold check80c
  dsimp only
  apply iteFinding_savings_nonneg
  · intro _
    exact le_rfl
  · intro _
    refine jround_nonneg (mul_nonneg (mul_nonneg (le_max_right _ _)
      (getMarginalRate_nonneg _ _ _ _)) (by norm_num [CESS_RATE]))

theorem checkNps_savings_nonneg (s : SalaryProfile) : 0 ≤ (checkNps s).savings := by
  unfold checkNps
  dsimp only
  apply iteFinding_savings_nonneg
  · intro _
    exact le_rfl
  · intro _
    refine jround_nonneg (mul_nonneg (mul_nonneg (le_max_right _ _)
      (getMarginalRate_nonneg _ _ _ _)) (by norm_num [CESS_RATE]))

theorem check80d_savings_nonneg (s : SalaryProfile) (o : CheckOpts) :
    0 ≤ (check80d s o).savings := by
  unfold check80d
  dsimp only
  apply iteFinding_savings_nonneg
  · intro _
    exact le_rfl
  · intro h1
    refine jround_nonneg (mul_nonneg (mul_nonneg ?_
      (getMarginalRate_nonneg _ _ _ _)) (by norm_num [CESS_RATE]))
    push_neg at h1
    split_ifs at h1 ⊢ <;>
      simp only [LIMIT_80D_SELF_SENIOR, LIMIT_80D_SELF_BELOW_60,
        LIMIT_80D_PARENTS_SENIOR, LIMIT_80D_PARENTS_BELOW_60] at h1 ⊢ <;>
      linarith

theorem checkRegime_savings_nonneg (s : SalaryProfile) (o : CheckOpts) :
    0 ≤ (checkRegime s o).savings := by
  unfold checkRegime
  dsimp only
  apply iteFinding_savings_nonneg
  · intro h
    exact le_of_lt h
  · intro _
    exact le_rfl

theorem checkRegime_opportunity_savings_pos (s : SalaryProfile) (o : CheckOpts)
    (h : (checkRegime s o).status = "opportunity") : 0 < (checkRegime s o).savings := by
  unfold checkRegime at h ⊢
  dsimp only at h ⊢
  refine iteFinding_savings_pos _ _ _ h ?_ ?_
  · intro hc _
    exact hc
  · intro _ hst
    simp at hst

theorem checkRegime_rec_new_savings (s : SalaryProfile) (o : CheckOpts)
    (h : recommendedOf (checkRegime s o).details = "new") :
    (checkRegime s o).savings = 0 := by
  unfold checkRegime at h ⊢
  dsimp only at h ⊢
  refine iteFinding_rec_savings _ _ _ h ?_ ?_
  · intro hc hrec
    simp only [recommendedOf] at hrec
    rw [if_pos hc] at hrec
    exact absurd hrec (by decide)
  · intro _ _
    rfl

theorem sum_gain_nonneg (l : List Holding) (h : ∀ x ∈ l, 0 < x.unrealized_gain) :
    0 ≤ (l.map Holding.unrealized_gain).sum := by
  apply List.sum_nonneg
  intro x hx
  obtain ⟨y, hy, rfl⟩ := List.mem_map.mp hx
  exact le_of_lt (h y hy)

theorem cg_future_tax_nonneg (l : List Holding) (asOf : MDate) (realized : ℚ) :
    0 ≤ jround (min ((List.filter
        (fun h => h.isLongTerm asOf && decide (0 < h.unrealized_gain)) l).map
          Holding.unrealized_gain).sum (max (LTCG_EXEMPTION - realized) 0) *
      LTCG_RATE * (1 + CESS_RATE)) := by
  refine jround_nonneg (mul_nonneg (mul_nonneg (le_min ?_ (le_max_right _ _)) ?_)
    (by norm_num [CESS_RATE]))
  · apply sum_gain_nonneg
    intro x hx
    have hmem := (List.mem_filter.mp hx).2
    simp only [Bool.and_eq_true, decide_eq_true_eq] at hmem
    exact hmem.2
  · norm_num [LTCG_RATE]

theorem checkCapitalGains_savings_nonneg (h : Holdings) (d : Option MDate) (today : MDate) :
    0 ≤ (checkCapitalGains h d today).savings := by
  unfold checkCapitalGains
  dsimp only
  split_ifs <;> first
    | exact le_rfl
    | exact cg_future_tax_nonneg _ _ _

-- ── Facts about the regime-suppression rewrite ─────────────────────────

theorem suppressFinding_status (f : Finding) :
    (suppressFinding f).status = "not_applicable" := rfl

theorem suppressFinding_savings (f : Finding) : (suppressFinding f).savings = 0 := rfl

theorem suppressFinding_details (f : Finding) : (suppressFinding f).details = f.details := rfl

theorem suppressFinding_finding_iff (g : Finding)
    (hne : ∀ x, g.finding ≠ FText.notApplicableUnderNewRegimeMsg x) :
    ((suppressFinding g).finding = FText.notApplicableUnderNewRegimeMsg g.savings ↔
      0 < g.savings) := by
  unfold suppressFinding
  dsimp only
  split_ifs with hc
  · simp [hc]
  · simp [hc, hne g.savings]

theorem check80c_finding_ne (s : SalaryProfile) (x : ℚ) :
    (check80c s).finding ≠ FText.notApplicableUnderNewRegimeMsg x := by
  unfold check80c
  dsimp only
  split_ifs <;> simp

theorem check80d_finding_ne (s : SalaryProfile) (o : CheckOpts) (x : ℚ) :
    (check80d s o).finding ≠ FText.notApplicableUnderNewRegimeMsg x := by
  unfold check80d
  dsimp only
  split_ifs <;> simp

theorem checkHra_finding_ne (s : SalaryProfile) (x : ℚ) :
    (checkHra s).finding ≠ FText.notApplicableUnderNewRegimeMsg x := by
  unfold checkHra
  dsimp only
  split_ifs <;> simp

theorem checkNps_finding_ne (s : SalaryProfile) (x : ℚ) :
    (checkNps s).finding ≠ FText.notApplicableUnderNewRegimeMsg x := by
  unfold checkNps
  dsimp only
  split_ifs <;> simp

theorem checkHomeLoan_finding_ne (s : SalaryProfile) (x : ℚ) :
    (checkHomeLoan s).finding ≠ FText.notApplicableUnderNewRegimeMsg x := by
  unfold checkHomeLoan
  dsimp only
  split_ifs <;> simp

-- ── Claim C1 ───────────────────────────────────────────────────────────

/-- C1.  For every salary profile, optional holdings and options, the
Report of `runAllChecks` has `total_savings` equal to the savings of the
regime-arbitrage finding plus the savings of the capital-gains finding
exactly; when the recommended regime is `old` the total is at most the sum
of the savings of the seven returned checks, and when the recommended
regime is `new` the total equals the capital-gains savings. -/
theorem runAllChecks_total_savings_law (s : SalaryProfile) (h : Option Holdings)
    (o : Opts) (today : MDate) :
    (runAllChecks s h o today).total_savings =
        (checkRegime s ⟨o.parentsSenior, false⟩).savings +
          (checkCapitalGains (h.getD emptyHoldings) o.cgAsOf today).savings ∧
      ((runAllChecks s h o today).recommended_regime = "old" →
        (runAllChecks s h o today).total_savings ≤
          ((runAllChecks s h o today).checks.map Finding.savings).sum) ∧
      ((runAllChecks s h o today).recommended_regime = "new" →
        (runAllChecks s h o today).total_savings =
          (checkCapitalGains (h.getD emptyHoldings) o.cgAsOf today).savings) := by
  refine ⟨rfl, ?_, ?_⟩
  · intro hrec
    unfold runAllChecks at hrec ⊢
    dsimp only at hrec ⊢
    have hne : ¬ (recommendedOf (checkRegime s ⟨o.parentsSenior, false⟩).details = "new") := by
      rw [hrec]
      decide
    rw [if_neg hne, sortBySavingsDesc_sum]
    simp only [List.map_cons, List.map_nil, List.sum_cons, List.sum_nil]
    have h80c := check80c_savings_nonneg s
    have h80d := check80d_savings_nonneg s ⟨o.parentsSenior, false⟩
    have hhra := checkHra_savings_zero s
    have hnps := checkNps_savings_nonneg s
    have hhl := checkHomeLoan_savings_zero s
    linarith
  · intro hrec
    unfold runAllChecks at hrec ⊢
    dsimp only at hrec ⊢
    rw [checkRegime_rec_new_savings s ⟨o.parentsSenior, false⟩ hrec, zero_add]

-- ── Claim C3 ───────────────────────────────────────────────────────────

/-- C3.  When the regime finding recommends the new regime, the orchestrator
returns exactly the regime and capital-gains findings unchanged together
with the five deduction-based findings rewritten by `suppressFinding`:
status `not_applicable`, savings 0, and the finding text replaced by the
would-save message exactly when the original savings were positive. -/
theorem runAllChecks_regime_interdependency (s : SalaryProfile) (h : Option Holdings)
    (o : Opts) (today : MDate)
    (hrec : (runAllChecks s h o today).recommended_regime = "new") :
    (runAllChecks s h o today).checks.Perm
        [checkRegime s ⟨o.parentsSenior, false⟩,
         suppressFinding (check80c s),
         suppressFinding (check80d s ⟨o.parentsSenior, false⟩),
         suppressFinding (checkHra s),
         checkCapitalGains (h.getD emptyHoldings) o.cgAsOf today,
         suppressFinding (checkNps s),
         suppressFinding (checkHomeLoan s)] ∧
      (∀ g ∈ [check80c s, check80d s ⟨o.parentsSenior, false⟩, checkHra s,
          checkNps s, checkHomeLoan s],
        (suppressFinding g).status = "not_applicable" ∧
        (suppressFinding g).savings = 0) ∧
      ((suppressFinding (check80c s)).finding =
          FText.notApplicableUnderNewRegimeMsg (check80c s).savings ↔
        0 < (check80c s).savings) ∧
      ((suppressFinding (check80d s ⟨o.parentsSenior, false⟩)).finding =
          FText.notApplicableUnderNewRegimeMsg (check80d s ⟨o.parentsSenior, false⟩).savings ↔
        0 < (check80d s ⟨o.parentsSenior, false⟩).savings) ∧
      ((suppressFinding (checkHra s)).finding =
          FText.notApplicableUnderNewRegimeMsg (checkHra s).savings ↔
        0 < (checkHra s).savings) ∧
      ((suppressFinding (checkNps s)).finding =
          FText.notApplicableUnderNewRegimeMsg (checkNps s).savings ↔
        0 < (checkNps s).savings) ∧
      ((suppressFinding (checkHomeLoan s)).finding =
          FText.notApplicableUnderNewRegimeMsg (checkHomeLoan s).savings ↔
        0 < (checkHomeLoan s).savings) := by
  unfold runAllChecks at hrec ⊢
  dsimp only at hrec ⊢
  refine ⟨?_, ?_, suppressFinding_finding_iff _ (check80c_finding_ne s),
    suppressFinding_finding_iff _ (check80d_finding_ne s _),
    suppressFinding_finding_iff _ (checkHra_finding_ne s),
    suppressFinding_finding_iff _ (checkNps_finding_ne s),
    suppressFinding_finding_iff _ (checkHomeLoan_finding_ne s)⟩
  · rw [if_pos hrec]
    exact sortBySavingsDesc_perm _
  · intro g _
    exact ⟨suppressFinding_status g, suppressFinding_savings g⟩

-- ── Claim C10 ──────────────────────────────────────────────────────────

/-- C10.  The report of `runAllChecks` does not depend on the `selfSenior`
option: the orchestrator reads only `parentsSenior` and `cgAsOf`, and calls
`checkRegime` and `check80d` with `selfSenior` fixed to `false`, so two
invocations differing only in `selfSenior` produce identical reports. -/
theorem runAllChecks_selfSenior_independent (s : SalaryProfile) (h : Option Holdings)
    (ps so1 so2 : Bool) (d : Option MDate) (today : MDate) :
    runAllChecks s h ⟨ps, so1, d⟩ today = runAllChecks s h ⟨ps, so2, d⟩ today := rfl

-- ── String and list evaluation facts used by concrete evaluations ──────

theorem sfNewOld : ("new" = "old") = False := by decide

theorem sfOldNew : ("old" = "new") = False := by decide

theorem sf2425ne2526 : ("2024-25" = "2025-26") = False := by decide

theorem sfB60Senior : ("below_60" = "senior") = False := by decide

theorem sfB60Super : ("below_60" = "super_senior") = False := by decide

theorem sf2324ne2425 : ("2023-24" = "2024-25") = False := by decide

theorem sf2324ne2526 : ("2023-24" = "2025-26") = False := by decide

theorem sf2526ne2425 : ("2025-26" = "2024-25") = False := by decide

theorem lower_mumbai : lowerString "mumbai" = "mumbai" := by decide

theorem metro_mumbai : METRO_CITIES.contains "mumbai" = true := by decide

theorem mumbai_metro_decide : (decide ("mumbai" ∈ METRO_CITIES)) = true := by decide

theorem lower_other : lowerString "other" = "other" := by decide

theorem other_metro_decide : (decide ("other" ∈ METRO_CITIES)) = false := by decide

theorem equity_mf_decide :
    (decide ("equity_mf" ∈ ["equity_share", "equity_mf", "elss"])) = true := by decide

-- ── Concrete inputs used by witnesses and counterexamples ──────────────

/-- The demo profile (PRIYA_PROFILE of data/demoProfile.js): FY 2024-25,
gross 15L, basic 6L, HRA received 3L, professional tax 2400, 80C 72000
(EPF), Mumbai, rent 25000 per month, employer applies the new regime. -/
@[reducible] def profilePriya : SalaryProfile :=
  { financial_year := "2024-25", employee_name := "Priya", pan := "", employer_name := ""
    gross_salary := 1500000, basic_salary := 600000, hra_received := 300000
    special_allowance := 0, lta := 0, bonus := 0, other_salary := 0
    hra_exemption := 0, lta_exemption := 0, other_exemptions := 0
    standard_deduction := 75000, professional_tax := 2400
    deduction_80c := 72000, deduction_80ccc := 0, deduction_80ccd_1 := 0
    deduction_80ccd_1b := 0, deduction_80ccd_2 := 0, deduction_80d := 0
    deduction_80e := 0, deduction_80g := 0, deduction_80tta := 0
    deduction_24b := 0, other_deductions := 0
    taxable_income := 0, tax_payable := 0, cess := 0, total_tax_paid := 0
    regime := "new", city := "mumbai", monthly_rent := 25000
    epf_employee_contribution := 72000 }

/-- An all-zero profile: income 0, no deductions, no rent. -/
@[reducible] def profileZero : SalaryProfile :=
  { financial_year := "2024-25", employee_name := "", pan := "", employer_name := ""
    gross_salary := 0, basic_salary := 0, hra_received := 0
    special_allowance := 0, lta := 0, bonus := 0, other_salary := 0
    hra_exemption := 0, lta_exemption := 0, other_exemptions := 0
    standard_deduction := 0, professional_tax := 0
    deduction_80c := 0, deduction_80ccc := 0, deduction_80ccd_1 := 0
    deduction_80ccd_1b := 0, deduction_80ccd_2 := 0, deduction_80d := 0
    deduction_80e := 0, deduction_80g := 0, deduction_80tta := 0
    deduction_24b := 0, other_deductions := 0
    taxable_income := 0, tax_payable := 0, cess := 0, total_tax_paid := 0
    regime := "new", city := "other", monthly_rent := 0
    epf_employee_contribution := 0 }

/-- A default March 1st 2025 clock for the capital-gains default date. -/
def today0 : MDate := ⟨2025, 0⟩

-- ── Staged concrete evaluations for the demo profile ───────────────────

theorem priyaE1 : computeNewRegimeTaxableIncome profilePriya = 1422600 := by
  norm_num [computeNewRegimeTaxableIncome, STANDARD_DEDUCTION]

theorem priyaE2 : calculateNewRegimeTax 1422600 "2024-25" =
    ⟨1422600, 124520, 0, 124520, 0, 4981, 129501⟩ := by
  norm_num [calculateNewRegimeTax, computeTaxOnSlabs, slabTaxAux, NEW_REGIME_SLABS_FY2024_25,
    apply87aRebate, REBATE_87A, getSurcharge, findSurchargeSlab, SURCHARGE_SLABS_NEW,
    applyCess, CESS_RATE, jround, Int.floor_eq_iff, sfNewOld, sfOldNew, sf2425ne2526]

theorem priyaE3 : calculateHraExemption 600000 300000 300000 true = 240000 := by
  norm_num [calculateHraExemption, HRA_METRO_PERCENT, HRA_RENT_MINUS_BASIC_PERCENT]

theorem priyaE4 : computeOldRegimeTaxableIncome profilePriya
    ⟨some 240000, some 150000, some 25000, some 50000, some 0⟩ =
    ⟨1500000, 240000, 0, 0, 1260000, 50000, 2400, 1207600, 150000, 50000, 0, 25000, 0, 0,
      225000, 982600⟩ := by
  norm_num [computeOldRegimeTaxableIncome, STANDARD_DEDUCTION, LIMIT_80C,
    LIMIT_24B_SELF_OCCUPIED]

theorem priyaE5 : calculateOldRegimeTax 982600 "2024-25" "below_60" =
    ⟨982600, 109020, 0, 109020, 0, 4361, 113381⟩ := by
  norm_num [calculateOldRegimeTax, computeTaxOnSlabs, slabTaxAux, OLD_REGIME_SLABS_BELOW_60,
    apply87aRebate, REBATE_87A, getSurcharge, findSurchargeSlab, SURCHARGE_SLABS_OLD,
    applyCess, CESS_RATE, jround, Int.floor_eq_iff, sfNewOld, sfOldNew, sf2425ne2526,
    sfB60Senior, sfB60Super]

set_option maxHeartbeats 1000000 in
theorem priya_rec_old :
    recommendedOf (checkRegime profilePriya ⟨false, false⟩).details = "old" := by
  norm_num [checkRegime, recommendedOf, SalaryProfile.is_metro, lower_mumbai,
    metro_mumbai, mumbai_metro_decide, priyaE1, priyaE2, priyaE3, priyaE4, priyaE5,
    LIMIT_80C, LIMIT_80CCD_1B, LIMIT_80D_SELF_BELOW_60, LIMIT_80D_SELF_SENIOR,
    LIMIT_80D_PARENTS_BELOW_60, LIMIT_80D_PARENTS_SENIOR, LIMIT_24B_SELF_OCCUPIED,
    sfNewOld, sfOldNew, sf2425ne2526, sfB60Senior, sfB60Super]

set_option maxHeartbeats 1000000 in
theorem priya_status_opp :
    (checkRegime profilePriya ⟨false, false⟩).status = "opportunity" := by
  norm_num [checkRegime, SalaryProfile.is_metro, lower_mumbai,
    metro_mumbai, mumbai_metro_decide, priyaE1, priyaE2, priyaE3, priyaE4, priyaE5,
    LIMIT_80C, LIMIT_80CCD_1B, LIMIT_80D_SELF_BELOW_60, LIMIT_80D_SELF_SENIOR,
    LIMIT_80D_PARENTS_BELOW_60, LIMIT_80D_PARENTS_SENIOR, LIMIT_24B_SELF_OCCUPIED,
    sfNewOld, sfOldNew, sf2425ne2526, sfB60Senior, sfB60Super]

-- ── Staged concrete evaluations for the zero profile ───────────────────

theorem zeroE1 : computeNewRegimeTaxableIncome profileZero = 0 := by
  norm_num [computeNewRegimeTaxableIncome, STANDARD_DEDUCTION]

theorem zeroE2 : calculateNewRegimeTax 0 "2024-25" = ⟨0, 0, 0, 0, 0, 0, 0⟩ := by
  norm_num [calculateNewRegimeTax, computeTaxOnSlabs, slabTaxAux, NEW_REGIME_SLABS_FY2024_25,
    apply87aRebate, REBATE_87A, getSurcharge, findSurchargeSlab, SURCHARGE_SLABS_NEW,
    applyCess, CESS_RATE, jround, Int.floor_eq_iff, sfNewOld, sfOldNew, sf2425ne2526]

theorem zeroE4 : computeOldRegimeTaxableIncome profileZero
    ⟨some 0, some 150000, some 25000, some 50000, some 0⟩ =
    ⟨0, 0, 0, 0, 0, 50000, 0, -50000, 150000, 50000, 0, 25000, 0, 0, 225000, 0⟩ := by
  norm_num [computeOldRegimeTaxableIncome, STANDARD_DEDUCTION, LIMIT_80C,
    LIMIT_24B_SELF_OCCUPIED]

theorem zeroE5 : calculateOldRegimeTax 0 "2024-25" "below_60" = ⟨0, 0, 0, 0, 0, 0, 0⟩ := by
  norm_num [calculateOldRegimeTax, computeTaxOnSlabs, slabTaxAux, OLD_REGIME_SLABS_BELOW_60,
    apply87aRebate, REBATE_87A, getSurcharge, findSurchargeSlab, SURCHARGE_SLABS_OLD,
    applyCess, CESS_RATE, jround, Int.floor_eq_iff, sfNewOld, sfOldNew, sf2425ne2526,
    sfB60Senior, sfB60Super]

set_option maxHeartbeats 1000000 in
theorem zero_rec_new :
    recommendedOf (checkRegime profileZero ⟨false, false⟩).details = "new" := by
  norm_num [checkRegime, recommendedOf, SalaryProfile.is_metro, lower_other,
    other_metro_decide, zeroE1, zeroE2, zeroE4, zeroE5,
    LIMIT_80C, LIMIT_80CCD_1B, LIMIT_80D_SELF_BELOW_60, LIMIT_80D_SELF_SENIOR,
    LIMIT_80D_PARENTS_BELOW_60, LIMIT_80D_PARENTS_SENIOR, LIMIT_24B_SELF_OCCUPIED,
    sfNewOld, sfOldNew, sf2425ne2526, sfB60Senior, sfB60Super]

-- ── Claim C7 ───────────────────────────────────────────────────────────

/-- C7.  Scenario S5: old-regime tax at taxable income 5100000 for FY
2024-25, below 60, has base tax 1342500, marginal-relief surcharge 70000
(not the raw 134250), cess 56500 and total 1469000. -/
theorem oldRegimeTax_51L_marginal_relief :
    (calculateOldRegimeTax 5100000 "2024-25" "below_60").base_tax = 1342500 ∧
    (calculateOldRegimeTax 5100000 "2024-25" "below_60").surcharge = 70000 ∧
    (calculateOldRegimeTax 5100000 "2024-25" "below_60").cess = 56500 ∧
    (calculateOldRegimeTax 5100000 "2024-25" "below_60").total_tax = 1469000 := by
  refine ⟨?_, ?_, ?_, ?_⟩ <;>
  norm_num [calculateOldRegimeTax, computeTaxOnSlabs, slabTaxAux, OLD_REGIME_SLABS_BELOW_60,
    apply87aRebate, REBATE_87A, getSurcharge, findSurchargeSlab, SURCHARGE_SLABS_OLD,
    applyCess, CESS_RATE, jround, Int.floor_eq_iff, sfNewOld, sfOldNew, sf2425ne2526,
    sfB60Senior, sfB60Super]

-- ── Claim C6 ───────────────────────────────────────────────────────────

/-- C6 counterexample.  At basic 10, HRA received 5, rent 0 (all
non-negative) the exemption is 0, which exceeds
B = rent − 0.10 × basic = −1: the claim "never exceeds B" fails. -/
theorem calculateHraExemption_exceeds_optionB :
    (0:ℚ) ≤ 10 ∧ (0:ℚ) ≤ 5 ∧ (0:ℚ) ≤ 0 ∧
    ¬ (calculateHraExemption 10 5 0 false ≤ 0 - HRA_RENT_MINUS_BASIC_PERCENT * 10) := by
  norm_num [calculateHraExemption, HRA_RENT_MINUS_BASIC_PERCENT, HRA_NON_METRO_PERCENT]

/-- C6 amended.  For non-negative basic, HRA received and rent, the HRA
exemption is never negative, never exceeds A = hra_received, never exceeds
C = (0.50 if metro else 0.40) × basic, and never exceeds
max(B, 0) with B = rent − 0.10 × basic; when B is negative it clamps to 0,
which is above B. -/
theorem calculateHraExemption_bounds (b hra rent : ℚ) (hb : 0 ≤ b) (hh : 0 ≤ hra)
    (hr : 0 ≤ rent) (metro : Bool) :
    0 ≤ calculateHraExemption b hra rent metro ∧
    calculateHraExemption b hra rent metro ≤ hra ∧
    calculateHraExemption b hra rent metro ≤
      (if metro then HRA_METRO_PERCENT else HRA_NON_METRO_PERCENT) * b ∧
    calculateHraExemption b hra rent metro ≤
      max (rent - HRA_RENT_MINUS_BASIC_PERCENT * b) 0 := by
  unfold calculateHraExemption
  dsimp only
  have hC : (0:ℚ) ≤ (if metro then HRA_METRO_PERCENT else HRA_NON_METRO_PERCENT) * b := by
    apply mul_nonneg _ hb
    split_ifs <;> norm_num [HRA_METRO_PERCENT, HRA_NON_METRO_PERCENT]
  refine ⟨le_max_right _ _, max_le (min_le_left _ _) hh, ?_, ?_⟩
  · exact max_le (le_trans (min_le_right _ _) (min_le_right _ _)) hC
  · exact max_le (le_trans (min_le_right _ _) (le_trans (min_le_left _ _) (le_max_left _ _)))
      (le_max_right _ _)

/-- C6 witness: the amended bounds hold at basic 600000, HRA 300000,
rent 300000, metro. -/
theorem calculateHraExemption_bounds_witness :
    ((0:ℚ) ≤ 600000 ∧ (0:ℚ) ≤ 300000 ∧ (0:ℚ) ≤ 300000) ∧
    (0 ≤ calculateHraExemption 600000 300000 300000 true ∧
      calculateHraExemption 600000 300000 300000 true ≤ 300000 ∧
      calculateHraExemption 600000 300000 300000 true ≤
        (if true then HRA_METRO_PERCENT else HRA_NON_METRO_PERCENT) * 600000 ∧
      calculateHraExemption 600000 300000 300000 true ≤
        max (300000 - HRA_RENT_MINUS_BASIC_PERCENT * 600000) 0) :=
  ⟨⟨by norm_num, by norm_num, by norm_num⟩,
   calculateHraExemption_bounds 600000 300000 300000 (by norm_num) (by norm_num)
     (by norm_num) true⟩

-- ── Claim C8 ───────────────────────────────────────────────────────────

/-- C8.  Redemption planner law: for positive planned LTCG and
non-negative exemption option values, one-FY taxable plus exemption used
equals the planned amount; the split is flagged beneficial exactly when
the split total tax is below the one-FY tax; and the split savings equal
max(one-FY tax − split total, 0). -/
theorem computeRedemptionTax_exemption_law (p : ℚ) (er enf : Option ℚ)
    (hp : 0 < p) (her : 0 ≤ er.getD LTCG_EXEMPTION) (henf : 0 ≤ enf.getD LTCG_EXEMPTION) :
    (computeRedemptionTax p er enf).one_fy.taxable +
        (computeRedemptionTax p er enf).one_fy.exemption_used = p ∧
    ((computeRedemptionTax p er enf).split_beneficial = true ↔
      (computeRedemptionTax p er enf).split_fy.total_tax <
        (computeRedemptionTax p er enf).one_fy.tax) ∧
    (computeRedemptionTax p er enf).split_savings =
      max ((computeRedemptionTax p er enf).one_fy.tax -
        (computeRedemptionTax p er enf).split_fy.total_tax) 0 := by
  unfold computeRedemptionTax
  dsimp only
  have hmp : max p 0 = p := max_eq_left hp.le
  rw [hmp]
  set E := er.getD LTCG_EXEMPTION with hE
  set F := enf.getD LTCG_EXEMPTION with hF
  refine ⟨?_, ?_, ?_⟩
  · rcases le_total p E with hle | hle
    · rw [max_eq_right (by linarith), min_eq_left hle]
      ring
    · rw [max_eq_left (by linarith), min_eq_right hle]
      ring
  · simp only [decide_eq_true_eq, zero_add]
    constructor <;> intro h <;> linarith
  · have key : jround (max (p - min p E - F) 0 * (LTCG_RATE * (1 + CESS_RATE))) ≤
        jround (max (p - E) 0 * (LTCG_RATE * (1 + CESS_RATE))) := by
      apply jround_mono
      apply mul_le_mul_of_nonneg_right _ (by norm_num [LTCG_RATE, CESS_RATE])
      apply max_le _ (le_max_right _ _)
      rcases le_total p E with hle | hle
      · rw [min_eq_left hle]
        apply le_trans (by linarith) (le_max_right _ _)
      · rw [min_eq_right hle]
        apply le_trans (by linarith) (le_max_left _ _)
    rw [zero_add]
    exact (max_eq_left (by linarith)).symm

/-- C8 witness: the law at the S4 scenario, planned LTCG 300000 with full
exemptions in both years. -/
theorem computeRedemptionTax_exemption_law_witness :
    ((0:ℚ) < 300000 ∧
      0 ≤ (Option.getD (some 125000) LTCG_EXEMPTION) ∧
      0 ≤ (Option.getD (some 125000) LTCG_EXEMPTION)) ∧
    ((computeRedemptionTax 300000 (some 125000) (some 125000)).one_fy.taxable +
        (computeRedemptionTax 300000 (some 125000) (some 125000)).one_fy.exemption_used =
        300000 ∧
      ((computeRedemptionTax 300000 (some 125000) (some 125000)).split_beneficial = true ↔
        (computeRedemptionTax 300000 (some 125000) (some 125000)).split_fy.total_tax <
          (computeRedemptionTax 300000 (some 125000) (some 125000)).one_fy.tax) ∧
      (computeRedemptionTax 300000 (some 125000) (some 125000)).split_savings =
        max ((computeRedemptionTax 300000 (some 125000) (some 125000)).one_fy.tax -
          (computeRedemptionTax 300000 (some 125000) (some 125000)).split_fy.total_tax) 0) :=
  ⟨⟨by norm_num, by norm_num, by norm_num⟩,
   computeRedemptionTax_exemption_law 300000 (some 125000) (some 125000)
     (by norm_num) (by norm_num) (by norm_num)⟩

-- ── Claim C5 ───────────────────────────────────────────────────────────

/-- Slab table the full tax pipelines select for a regime and year:
`calculateNewRegimeTax` picks the new-regime table by year (unknown year
falls back to FY 2024-25) and `calculateOldRegimeTax` with the default
age category picks the below-60 table. -/
def pipelineSlabs (regime fy : String) : List Slab :=
  if regime = "new" then
    if fy = "2025-26" then NEW_REGIME_SLABS_FY2025_26 else NEW_REGIME_SLABS_FY2024_25
  else OLD_REGIME_SLABS_BELOW_60

/-- C5.  Rebate cliff: for every `(fy, regime)` pair with an 87A entry,
raising taxable income from the ceiling to ceiling + 1 raises the
tax-after-rebate by at least the rebate subtracted at the ceiling. -/
theorem rebate_cliff (fy regime : String) (ceil maxR : ℚ)
    (h : REBATE_87A fy regime = some (ceil, maxR)) :
    apply87aRebate (computeTaxOnSlabs ceil (pipelineSlabs regime fy)) ceil regime fy +
        min (computeTaxOnSlabs ceil (pipelineSlabs regime fy)) maxR ≤
      apply87aRebate (computeTaxOnSlabs (ceil + 1) (pipelineSlabs regime fy))
        (ceil + 1) regime fy := by
  unfold REBATE_87A at h
  split_ifs at h with h1 h2 h3 h4 h5 h6
  all_goals simp only [Option.some.injEq, Prod.mk.injEq, reduceCtorEq] at h
  all_goals obtain ⟨h7, h8⟩ := h
  all_goals subst_vars
  all_goals
    norm_num [apply87aRebate, REBATE_87A, pipelineSlabs, computeTaxOnSlabs, slabTaxAux,
      NEW_REGIME_SLABS_FY2024_25, NEW_REGIME_SLABS_FY2025_26, OLD_REGIME_SLABS_BELOW_60,
      jround, Int.floor_eq_iff, sfNewOld, sfOldNew, sf2425ne2526, sf2526ne2425]

/-- C5 witness: the cliff at the FY 2024-25 new-regime entry, ceiling
700000 with maximum rebate 25000. -/
theorem rebate_cliff_witness :
    REBATE_87A "2024-25" "new" = some (700000, 25000) ∧
    apply87aRebate (computeTaxOnSlabs 700000 (pipelineSlabs "new" "2024-25")) 700000
          "new" "2024-25" +
        min (computeTaxOnSlabs 700000 (pipelineSlabs "new" "2024-25")) 25000 ≤
      apply87aRebate (computeTaxOnSlabs (700000 + 1) (pipelineSlabs "new" "2024-25"))
        (700000 + 1) "new" "2024-25" :=
  ⟨by norm_num [REBATE_87A, sfNewOld],
   rebate_cliff "2024-25" "new" 700000 25000 (by norm_num [REBATE_87A, sfNewOld])⟩

-- ── Claim C4 ───────────────────────────────────────────────────────────

theorem apply87aRebate_none (t x : ℚ) (regime fy : String)
    (h : REBATE_87A fy regime = none) : apply87aRebate t x regime fy = t := by
  unfold apply87aRebate
  rw [h]

theorem apply87aRebate_above (t x : ℚ) (regime fy : String) (info : ℚ × ℚ)
    (h : REBATE_87A fy regime = some info) (hx : info.1 < x) :
    apply87aRebate t x regime fy = t := by
  unfold apply87aRebate
  rw [h]
  exact if_neg (not_le.mpr hx)

theorem REBATE_87A_unknown (fy regime : String) (h1 : fy ≠ "2024-25")
    (h2 : fy ≠ "2025-26") : REBATE_87A fy regime = none := by
  unfold REBATE_87A
  rw [if_neg h1, if_neg h2]

/-- C4 counterexample.  At taxable income 600000 the new-regime breakdown
for the unknown year 2023-24 differs from the FY 2024-25 breakdown: the
slabs fall back but the 87A rebate does not (total 15600 versus 0). -/
theorem calculateNewRegimeTax_unknown_fy_differs :
    calculateNewRegimeTax 600000 "2023-24" ≠ calculateNewRegimeTax 600000 "2024-25" := by
  intro hEq
  have hA : (calculateNewRegimeTax 600000 "2023-24").total_tax = 15600 := by
    norm_num [calculateNewRegimeTax, computeTaxOnSlabs, slabTaxAux, NEW_REGIME_SLABS_FY2024_25,
      apply87aRebate, REBATE_87A, getSurcharge, findSurchargeSlab, SURCHARGE_SLABS_NEW,
      applyCess, CESS_RATE, jround, Int.floor_eq_iff, sf2324ne2425, sf2324ne2526]
  have hB : (calculateNewRegimeTax 600000 "2024-25").total_tax = 0 := by
    norm_num [calculateNewRegimeTax, computeTaxOnSlabs, slabTaxAux, NEW_REGIME_SLABS_FY2024_25,
      apply87aRebate, REBATE_87A, getSurcharge, findSurchargeSlab, SURCHARGE_SLABS_NEW,
      applyCess, CESS_RATE, jround, Int.floor_eq_iff, sfNewOld, sfOldNew, sf2425ne2526]
  rw [hEq, hB] at hA
  norm_num at hA

/-- C4 amended.  An unknown financial year falls back to the FY 2024-25
slab tables (base tax always agrees) but has no 87A entry, so its rebate
component is 0; the full breakdowns coincide with the FY 2024-25 ones
exactly on incomes above the 2024-25 87A ceiling (700000 new regime,
500000 old regime, where the ceiling makes 2024-25 apply no rebate
either). -/
theorem calculate_tax_unknown_fy (fy : String) (h1 : fy ≠ "2024-25")
    (h2 : fy ≠ "2025-26") (income : ℚ) (age : String) :
    (calculateNewRegimeTax income fy).base_tax =
        (calculateNewRegimeTax income "2024-25").base_tax ∧
    (calculateNewRegimeTax income fy).rebate_87a = 0 ∧
    (700000 < income →
      calculateNewRegimeTax income fy = calculateNewRegimeTax income "2024-25") ∧
    (calculateOldRegimeTax income fy age).base_tax =
        (calculateOldRegimeTax income "2024-25" age).base_tax ∧
    (calculateOldRegimeTax income fy age).rebate_87a = 0 ∧
    (500000 < income →
      calculateOldRegimeTax income fy age = calculateOldRegimeTax income "2024-25" age) := by
  have hslab : (if fy = "2025-26" then NEW_REGIME_SLABS_FY2025_26
      else NEW_REGIME_SLABS_FY2024_25) = NEW_REGIME_SLABS_FY2024_25 := if_neg h2
  have hrebNew := REBATE_87A_unknown fy "new" h1 h2
  have hrebOld := REBATE_87A_unknown fy "old" h1 h2
  have h24new : REBATE_87A "2024-25" "new" = some (700000, 25000) := by
    norm_num [REBATE_87A, sfNewOld]
  have h24old : REBATE_87A "2024-25" "old" = some (500000, 12500) := by
    norm_num [REBATE_87A]
  refine ⟨?_, ?_, ?_, ?_, ?_, ?_⟩
  · unfold calculateNewRegimeTax
    dsimp only
    rw [hslab]
    norm_num [sf2425ne2526]
  · unfold calculateNewRegimeTax
    dsimp only
    rw [hslab, apply87aRebate_none _ _ _ _ hrebNew, sub_self]
    norm_num [jround]
  · intro hinc
    unfold calculateNewRegimeTax
    dsimp only
    rw [hslab, apply87aRebate_none _ _ _ _ hrebNew,
      apply87aRebate_above _ _ _ _ _ h24new (by exact hinc)]
    norm_num [sf2425ne2526]
  · rfl
  · unfold calculateOldRegimeTax
    dsimp only
    rw [apply87aRebate_none _ _ _ _ hrebOld, sub_self]
    norm_num [jround]
  · intro hinc
    unfold calculateOldRegimeTax
    dsimp only
    rw [apply87aRebate_none _ _ _ _ hrebOld,
      apply87aRebate_above _ _ _ _ _ h24old (by exact hinc)]

/-- C4 witness: at income 800000 the unknown year 2023-24 and FY 2024-25
breakdowns coincide in both regimes. -/
theorem calculate_tax_unknown_fy_witness :
    ("2023-24" ≠ "2024-25" ∧ "2023-24" ≠ "2025-26" ∧ (700000:ℚ) < 800000 ∧
      (500000:ℚ) < 800000) ∧
    calculateNewRegimeTax 800000 "2023-24" = calculateNewRegimeTax 800000 "2024-25" ∧
    calculateOldRegimeTax 800000 "2023-24" "below_60" =
      calculateOldRegimeTax 800000 "2024-25" "below_60" :=
  ⟨⟨by decide, by decide, by norm_num, by norm_num⟩,
   (calculate_tax_unknown_fy "2023-24" (by decide) (by decide) 800000 "below_60").2.2.1
     (by norm_num),
   (calculate_tax_unknown_fy "2023-24" (by decide) (by decide) 800000 "below_60").2.2.2.2.2
     (by norm_num)⟩

/-- C1 witness: the totals law exercised on the demo profile (recommended
regime old) and on the zero profile (recommended regime new). -/
theorem runAllChecks_total_savings_law_witness :
    ((runAllChecks profilePriya none ⟨false, false, none⟩ today0).recommended_regime =
        "old" ∧
      (runAllChecks profilePriya none ⟨false, false, none⟩ today0).total_savings ≤
        ((runAllChecks profilePriya none ⟨false, false, none⟩ today0).checks.map
          Finding.savings).sum) ∧
    ((runAllChecks profileZero none ⟨false, false, none⟩ today0).recommended_regime =
        "new" ∧
      (runAllChecks profileZero none ⟨false, false, none⟩ today0).total_savings =
        (checkCapitalGains emptyHoldings none today0).savings) :=
  ⟨⟨priya_rec_old,
    (runAllChecks_total_savings_law profilePriya none ⟨false, false, none⟩ today0).2.1
      priya_rec_old⟩,
   ⟨zero_rec_new,
    (runAllChecks_total_savings_law profileZero none ⟨false, false, none⟩ today0).2.2
      zero_rec_new⟩⟩

/-- C3 witness: the interdependency rewrite exercised on the zero profile,
whose regime finding recommends the new regime. -/
theorem runAllChecks_regime_interdependency_witness :
    (runAllChecks profileZero none ⟨false, false, none⟩ today0).recommended_regime = "new" ∧
    (runAllChecks profileZero none ⟨false, false, none⟩ today0).checks.Perm
      [checkRegime profileZero ⟨false, false⟩,
       suppressFinding (check80c profileZero),
       suppressFinding (check80d profileZero ⟨false, false⟩),
       suppressFinding (checkHra profileZero),
       checkCapitalGains emptyHoldings none today0,
       suppressFinding (checkNps profileZero),
       suppressFinding (checkHomeLoan profileZero)] :=
  ⟨zero_rec_new,
   (runAllChecks_regime_interdependency profileZero none ⟨false, false, none⟩ today0
     zero_rec_new).1⟩

-- ── Claim C9 ───────────────────────────────────────────────────────

/-- A single short-term equity-fund holding bought May 2024 (JS months are
0-indexed) with a positive unrealized gain of 50, held 10 months at the
reference date March 2025. -/
@[reducible] def holdingsCx : Holdings :=
  ⟨[{ security_name := "h1", security_type := "equity_mf", purchase_date := ⟨2024, 4⟩,
      purchase_price := 0, quantity := 1, current_price := 50 }], 0, 0⟩

theorem equity_mf_mem : ("equity_mf" ∈ ["equity_share", "equity_mf", "elss"]) = True := by
  simp

/-- The capital-gains check on the alert-only portfolio: an Opportunity
finding with savings 0 (no harvestable LTCG, one holding-period alert). -/
theorem cgAlertOnly_opp_zero :
    (checkCapitalGains holdingsCx (some ⟨2025, 2⟩) today0).status = "opportunity" ∧
    (checkCapitalGains holdingsCx (some ⟨2025, 2⟩) today0).savings = 0 := by
  constructor <;>
  norm_num [checkCapitalGains, Holding.isLongTerm, Holding.holdingMonths,
    Holding.unrealized_gain, Holding.total_cost, Holding.current_value, roundTo2,
    jround, Int.floor_eq_iff, equity_mf_mem, LTCG_EXEMPTION, LTCG_RATE, STCG_RATE,
    CESS_RATE, List.filter]

/-- The 80C gap check on the zero-income profile: an Opportunity finding
(gap 150000) whose savings round to 0 because the marginal rate at the
negative gross total income is 0. -/
theorem check80c_zeroProfile_opp_zero :
    (check80c profileZero).status = "opportunity" ∧ (check80c profileZero).savings = 0 := by
  constructor <;>
  norm_num [check80c, computeOldRegimeTaxableIncome, STANDARD_DEDUCTION, noOldOpts,
    getMarginalRate, marginalRateAux, OLD_REGIME_SLABS_BELOW_60, LIMIT_80C,
    LIMIT_24B_SELF_OCCUPIED, CESS_RATE, jround, Int.floor_eq_iff, sfOldNew,
    sfB60Senior, sfB60Super]

/-- The 80D check on the zero-income profile: an Opportunity finding
(recommended premium 25000) whose savings round to 0 at marginal rate 0. -/
theorem check80d_zeroProfile_opp_zero :
    (check80d profileZero ⟨false, false⟩).status = "opportunity" ∧
    (check80d profileZero ⟨false, false⟩).savings = 0 := by
  constructor <;>
  norm_num [check80d, computeOldRegimeTaxableIncome, STANDARD_DEDUCTION, noOldOpts,
    getMarginalRate, marginalRateAux, OLD_REGIME_SLABS_BELOW_60,
    LIMIT_80D_SELF_BELOW_60, LIMIT_80D_SELF_SENIOR, LIMIT_80D_PARENTS_BELOW_60,
    LIMIT_80D_PARENTS_SENIOR, LIMIT_80C, LIMIT_24B_SELF_OCCUPIED, CESS_RATE, jround,
    Int.floor_eq_iff, sfOldNew, sfB60Senior, sfB60Super]

/-- The NPS check on the zero-income profile: an Opportunity finding
(gap 50000) whose savings round to 0 at marginal rate 0. -/
theorem checkNps_zeroProfile_opp_zero :
    (checkNps profileZero).status = "opportunity" ∧ (checkNps profileZero).savings = 0 := by
  constructor <;>
  norm_num [checkNps, computeOldRegimeTaxableIncome, STANDARD_DEDUCTION, noOldOpts,
    getMarginalRate, marginalRateAux, OLD_REGIME_SLABS_BELOW_60, LIMIT_80CCD_1B,
    LIMIT_80C, LIMIT_24B_SELF_OCCUPIED, CESS_RATE, jround, Int.floor_eq_iff, sfOldNew,
    sfB60Senior, sfB60Super]

/-- C9 counterexample.  Four of the five checks the claim covers return an
Opportunity finding with savings 0 at concrete inputs: capital_gains on a
portfolio whose only trigger is a holding-period alert, and 80c_gap,
80d_check and nps_check on the zero-income profile, where the gap is
positive but the marginal rate at the gross total income is 0. -/
theorem opportunity_zero_savings_cx :
    ((checkCapitalGains holdingsCx (some ⟨2025, 2⟩) today0).check_id = "capital_gains" ∧
      (checkCapitalGains holdingsCx (some ⟨2025, 2⟩) today0).status = "opportunity" ∧
      (checkCapitalGains holdingsCx (some ⟨2025, 2⟩) today0).savings = 0) ∧
    ((check80c profileZero).status = "opportunity" ∧ (check80c profileZero).savings = 0) ∧
    ((check80d profileZero ⟨false, false⟩).status = "opportunity" ∧
      (check80d profileZero ⟨false, false⟩).savings = 0) ∧
    ((checkNps profileZero).status = "opportunity" ∧ (checkNps profileZero).savings = 0) :=
  ⟨⟨by norm_num [checkCapitalGains, Holding.isLongTerm, Holding.holdingMonths,
        Holding.unrealized_gain, Holding.total_cost, Holding.current_value, roundTo2,
        jround, Int.floor_eq_iff, equity_mf_mem, LTCG_EXEMPTION, LTCG_RATE, STCG_RATE,
        CESS_RATE, List.filter],
      cgAlertOnly_opp_zero.1, cgAlertOnly_opp_zero.2⟩,
   check80c_zeroProfile_opp_zero, check80d_zeroProfile_opp_zero,
   checkNps_zeroProfile_opp_zero⟩

/-- C9 amended.  Opportunity findings of the regime-arbitrage check always
have positive savings, and the 80C, 80D, NPS and capital-gains checks
always report savings at least 0; but each of those four can return an
Opportunity with savings exactly 0, as the stated concrete instances
show: the three deduction checks on the zero-income profile (positive gap,
marginal rate 0) and the capital-gains check on an alert-only
portfolio. -/
theorem opportunity_savings_sign (s : SalaryProfile) (o : CheckOpts) (h : Holdings)
    (d : Option MDate) (today : MDate)
    (hopp : (checkRegime s o).status = "opportunity") :
    (0 < (checkRegime s o).savings ∧ 0 ≤ (check80c s).savings ∧
      0 ≤ (check80d s o).savings ∧ 0 ≤ (checkNps s).savings ∧
      0 ≤ (checkCapitalGains h d today).savings) ∧
    ((check80c profileZero).status = "opportunity" ∧ (check80c profileZero).savings = 0) ∧
    ((check80d profileZero ⟨false, false⟩).status = "opportunity" ∧
      (check80d profileZero ⟨false, false⟩).savings = 0) ∧
    ((checkNps profileZero).status = "opportunity" ∧ (checkNps profileZero).savings = 0) ∧
    ((checkCapitalGains holdingsCx (some ⟨2025, 2⟩) today0).status = "opportunity" ∧
      (checkCapitalGains holdingsCx (some ⟨2025, 2⟩) today0).savings = 0) :=
  ⟨⟨checkRegime_opportunity_savings_pos s o hopp, check80c_savings_nonneg s,
    check80d_savings_nonneg s o, checkNps_savings_nonneg s,
    checkCapitalGains_savings_nonneg h d today⟩,
   check80c_zeroProfile_opp_zero, check80d_zeroProfile_opp_zero,
   checkNps_zeroProfile_opp_zero, cgAlertOnly_opp_zero⟩

/-- C9 witness: the sign facts at the demo profile, whose regime finding
is an Opportunity. -/
theorem opportunity_savings_sign_witness :
    (checkRegime profilePriya ⟨false, false⟩).status = "opportunity" ∧
    (0 < (checkRegime profilePriya ⟨false, false⟩).savings ∧
      0 ≤ (check80c profilePriya).savings ∧
      0 ≤ (check80d profilePriya ⟨false, false⟩).savings ∧
      0 ≤ (checkNps profilePriya).savings ∧
      0 ≤ (checkCapitalGains emptyHoldings none today0).savings) :=
  ⟨priya_status_opp,
   (opportunity_savings_sign profilePriya ⟨false, false⟩ emptyHoldings none today0
     priya_status_opp).1⟩

-- ── Claim C2: marginal relief for the old below-60 pipeline ────────────

/-- Pre-cess total of the old-regime below-60 pipeline: slab tax, then the
87A rebate, then surcharge with marginal relief; the sum
tax_after_rebate + surcharge before cess. -/
def preCessOldB60 (x : ℚ) : ℚ :=
  let baseTax := computeTaxOnSlabs x OLD_REGIME_SLABS_BELOW_60
  let taxAfterRebate := apply87aRebate baseTax x "old" "2024-25"
  taxAfterRebate + getSurcharge x taxAfterRebate SURCHARGE_SLABS_OLD OLD_REGIME_SLABS_BELOW_60

theorem REBATE_2425_old : REBATE_87A "2024-25" "old" = some (500000, 12500) := by
  norm_num [REBATE_87A]

theorem rebate_noop_old (t x : ℚ) (h : 500000 < x) :
    apply87aRebate t x "old" "2024-25" = t :=
  apply87aRebate_above t x "old" "2024-25" (500000, 12500) REBATE_2425_old h

/-- Above the top slab boundary the old below-60 slab tax is linear with
marginal rate 30 percent. -/
theorem taxOldB60_linear (x : ℚ) (h : 1000000 < x) :
    computeTaxOnSlabs x OLD_REGIME_SLABS_BELOW_60 = 3/10 * x - 187500 := by
  have h0 : ¬ x ≤ (0:ℚ) := by linarith
  have h1 : ¬ x ≤ (250000:ℚ) := by linarith
  have h2 : ¬ x ≤ (500000:ℚ) := by linarith
  have h3 : ¬ x ≤ (1000000:ℚ) := by linarith
  have m1 : min x 250000 = 250000 := min_eq_right (by linarith)
  have m2 : min x 500000 = 500000 := min_eq_right (by linarith)
  have m3 : min x 1000000 = 1000000 := min_eq_right (by linarith)
  simp only [computeTaxOnSlabs, OLD_REGIME_SLABS_BELOW_60, slabTaxAux, if_neg h0,
    if_neg h1, if_neg h2, if_neg h3, m1, m2, m3]
  ring

theorem findO_r1 (x : ℚ) (ha : 5000000 < x) (hb : x ≤ 10000000) :
    findSurchargeSlab x 0 0 SURCHARGE_SLABS_OLD = (10/100, 5000000, 0) := by
  simp only [SURCHARGE_SLABS_OLD, findSurchargeSlab, if_neg (not_le.mpr ha), if_pos hb]

theorem findO_r2 (x : ℚ) (ha : 10000000 < x) (hb : x ≤ 20000000) :
    findSurchargeSlab x 0 0 SURCHARGE_SLABS_OLD = (15/100, 10000000, 10/100) := by
  simp only [SURCHARGE_SLABS_OLD, findSurchargeSlab, if_neg (not_le.mpr (by linarith : (5000000:ℚ) < x)),
    if_neg (not_le.mpr ha), if_pos hb]

theorem findO_r3 (x : ℚ) (ha : 20000000 < x) (hb : x ≤ 50000000) :
    findSurchargeSlab x 0 0 SURCHARGE_SLABS_OLD = (25/100, 20000000, 15/100) := by
  simp only [SURCHARGE_SLABS_OLD, findSurchargeSlab, if_neg (not_le.mpr (by linarith : (5000000:ℚ) < x)),
    if_neg (not_le.mpr (by linarith : (10000000:ℚ) < x)), if_neg (not_le.mpr ha), if_pos hb]

theorem findO_r4 (x : ℚ) (ha : 50000000 < x) :
    findSurchargeSlab x 0 0 SURCHARGE_SLABS_OLD = (37/100, 50000000, 25/100) := by
  simp only [SURCHARGE_SLABS_OLD, findSurchargeSlab, if_neg (not_le.mpr (by linarith : (5000000:ℚ) < x)),
    if_neg (not_le.mpr (by linarith : (10000000:ℚ) < x)),
    if_neg (not_le.mpr (by linarith : (20000000:ℚ) < x)), if_neg (not_le.mpr ha)]

/-- Both branches of the surcharge computation keep the pre-cess total
within half a rupee of the marginal-relief cap anchored at the previous
threshold. -/
theorem preCess_branch_bound (x bt rate P prevRate : ℚ)
    (hfind : findSurchargeSlab x 0 0 SURCHARGE_SLABS_OLD = (rate, P, prevRate))
    (hrate : rate ≠ 0)
    (hle : bt ≤ computeTaxOnSlabs P OLD_REGIME_SLABS_BELOW_60 * (1 + prevRate) + (x - P)) :
    bt + getSurcharge x bt SURCHARGE_SLABS_OLD OLD_REGIME_SLABS_BELOW_60 ≤
      computeTaxOnSlabs P OLD_REGIME_SLABS_BELOW_60 * (1 + prevRate) + (x - P) + 1/2 := by
  unfold getSurcharge
  rw [hfind]
  dsimp only
  rw [if_neg hrate]
  set T := computeTaxOnSlabs P OLD_REGIME_SLABS_BELOW_60 with hT
  have hdist : T * (1 + prevRate) = T + T * prevRate := by ring
  split_ifs with hrel
  · have hy : 0 ≤ T + T * prevRate + (x - P) - bt := by linarith
    rw [max_eq_left hy]
    have hj := jround_le (T + T * prevRate + (x - P) - bt)
    linarith
  · push_neg at hrel
    have hj := jround_le (bt * rate)
    linarith

theorem taxOldB60_at5L : computeTaxOnSlabs 5000000 OLD_REGIME_SLABS_BELOW_60 = 1312500 := by
  rw [taxOldB60_linear 5000000 (by norm_num)]
  norm_num

theorem taxOldB60_at1Cr : computeTaxOnSlabs 10000000 OLD_REGIME_SLABS_BELOW_60 = 2812500 := by
  rw [taxOldB60_linear 10000000 (by norm_num)]
  norm_num

theorem taxOldB60_at2Cr : computeTaxOnSlabs 20000000 OLD_REGIME_SLABS_BELOW_60 = 5812500 := by
  rw [taxOldB60_linear 20000000 (by norm_num)]
  norm_num

theorem taxOldB60_at5Cr : computeTaxOnSlabs 50000000 OLD_REGIME_SLABS_BELOW_60 = 14812500 := by
  rw [taxOldB60_linear 50000000 (by norm_num)]
  norm_num

theorem pc_r1 (x : ℚ) (ha : 5000000 < x) (hb : x ≤ 10000000) :
    preCessOldB60 x ≤ 1312500 + (x - 5000000) + 1/2 := by
  unfold preCessOldB60
  dsimp only
  rw [rebate_noop_old _ x (by linarith)]
  have hbt := taxOldB60_linear x (by linarith)
  have key := preCess_branch_bound x (computeTaxOnSlabs x OLD_REGIME_SLABS_BELOW_60)
    (10/100) 5000000 0 (findO_r1 x ha hb) (by norm_num)
    (by rw [hbt, taxOldB60_at5L]; linarith)
  rw [taxOldB60_at5L] at key
  linarith

theorem pc_r2 (x : ℚ) (ha : 10000000 < x) (hb : x ≤ 20000000) :
    preCessOldB60 x ≤ 3093750 + (x - 10000000) + 1/2 := by
  unfold preCessOldB60
  dsimp only
  rw [rebate_noop_old _ x (by linarith)]
  have hbt := taxOldB60_linear x (by linarith)
  have key := preCess_branch_bound x (computeTaxOnSlabs x OLD_REGIME_SLABS_BELOW_60)
    (15/100) 10000000 (10/100) (findO_r2 x ha hb) (by norm_num)
    (by rw [hbt, taxOldB60_at1Cr]; linarith)
  rw [taxOldB60_at1Cr] at key
  linarith

theorem pc_r3 (x : ℚ) (ha : 20000000 < x) (hb : x ≤ 50000000) :
    preCessOldB60 x ≤ 6684375 + (x - 20000000) + 1/2 := by
  unfold preCessOldB60
  dsimp only
  rw [rebate_noop_old _ x (by linarith)]
  have hbt := taxOldB60_linear x (by linarith)
  have key := preCess_branch_bound x (computeTaxOnSlabs x OLD_REGIME_SLABS_BELOW_60)
    (25/100) 20000000 (15/100) (findO_r3 x ha hb) (by norm_num)
    (by rw [hbt, taxOldB60_at2Cr]; linarith)
  rw [taxOldB60_at2Cr] at key
  linarith

theorem pc_r4 (x : ℚ) (ha : 50000000 < x) :
    preCessOldB60 x ≤ 18515625 + (x - 50000000) + 1/2 := by
  unfold preCessOldB60
  dsimp only
  rw [rebate_noop_old _ x (by linarith)]
  have hbt := taxOldB60_linear x (by linarith)
  have key := preCess_branch_bound x (computeTaxOnSlabs x OLD_REGIME_SLABS_BELOW_60)
    (37/100) 50000000 (25/100) (findO_r4 x ha) (by norm_num)
    (by rw [hbt, taxOldB60_at5Cr]; linarith)
  rw [taxOldB60_at5Cr] at key
  linarith

theorem pc_at5L : preCessOldB60 5000000 = 1312500 := by
  norm_num [preCessOldB60, apply87aRebate, REBATE_87A, getSurcharge, findSurchargeSlab,
    SURCHARGE_SLABS_OLD, computeTaxOnSlabs, slabTaxAux, OLD_REGIME_SLABS_BELOW_60,
    jround, Int.floor_eq_iff]

theorem pc_at1Cr : preCessOldB60 10000000 = 3093750 := by
  norm_num [preCessOldB60, apply87aRebate, REBATE_87A, getSurcharge, findSurchargeSlab,
    SURCHARGE_SLABS_OLD, computeTaxOnSlabs, slabTaxAux, OLD_REGIME_SLABS_BELOW_60,
    jround, Int.floor_eq_iff]

theorem pc_at2Cr : preCessOldB60 20000000 = 6684375 := by
  norm_num [preCessOldB60, apply87aRebate, REBATE_87A, getSurcharge, findSurchargeSlab,
    SURCHARGE_SLABS_OLD, computeTaxOnSlabs, slabTaxAux, OLD_REGIME_SLABS_BELOW_60,
    jround, Int.floor_eq_iff]

theorem pc_at5Cr : preCessOldB60 50000000 = 18515625 := by
  norm_num [preCessOldB60, apply87aRebate, REBATE_87A, getSurcharge, findSurchargeSlab,
    SURCHARGE_SLABS_OLD, computeTaxOnSlabs, slabTaxAux, OLD_REGIME_SLABS_BELOW_60,
    jround, Int.floor_eq_iff]

/-- C2 counterexample.  At the first surcharge threshold 5000000 with
delta 1 the pre-cess total is 1312501.3, which exceeds the threshold total
1312500 plus 1: the surcharge Math.round pushed the total 0.3 rupees over
the claimed cap. -/
theorem preCess_marginal_relief_violation :
    (some (5000000:ℚ), (0:ℚ)) ∈ SURCHARGE_SLABS_OLD ∧ (0:ℚ) < 1 ∧
    ¬ (preCessOldB60 (5000000 + 1) ≤ preCessOldB60 5000000 + 1) := by
  refine ⟨by norm_num [SURCHARGE_SLABS_OLD], by norm_num, ?_⟩
  have h1 : preCessOldB60 5000001 = 13125013/10 := by
    norm_num [preCessOldB60, apply87aRebate, REBATE_87A, getSurcharge, findSurchargeSlab,
      SURCHARGE_SLABS_OLD, computeTaxOnSlabs, slabTaxAux, OLD_REGIME_SLABS_BELOW_60,
      jround, Int.floor_eq_iff]
  norm_num [h1, pc_at5L]

/-- C2 amended.  For every finite threshold T of the old surcharge table
and every positive delta, the pre-cess total of the old below-60 pipeline
at T + delta is at most the pre-cess total at T plus delta plus half a
rupee; the half-rupee slack, coming from rounding the surcharge to the
nearest rupee, is attained up to 0.3 at delta = 1 and cannot be removed. -/
theorem preCess_marginal_relief_bound (T r δ : ℚ)
    (hmem : (some T, r) ∈ SURCHARGE_SLABS_OLD) (hδ : 0 < δ) :
    preCessOldB60 (T + δ) ≤ preCessOldB60 T + δ + 1/2 := by
  simp only [SURCHARGE_SLABS_OLD, List.mem_cons, List.not_mem_nil, or_false,
    Prod.mk.injEq, Option.some.injEq, reduceCtorEq, false_and] at hmem
  rcases hmem with ⟨rfl, rfl⟩ | ⟨rfl, rfl⟩ | ⟨rfl, rfl⟩ | ⟨rfl, rfl⟩
  · rw [pc_at5L]
    rcases le_or_lt (5000000 + δ) 10000000 with hb | hb
    · have := pc_r1 (5000000 + δ) (by linarith) hb
      linarith
    · rcases le_or_lt (5000000 + δ) 20000000 with hb2 | hb2
      · have := pc_r2 (5000000 + δ) (by linarith) hb2
        linarith
      · rcases le_or_lt (5000000 + δ) 50000000 with hb3 | hb3
        · have := pc_r3 (5000000 + δ) (by linarith) hb3
          linarith
        · have := pc_r4 (5000000 + δ) (by linarith)
          linarith
  · rw [pc_at1Cr]
    rcases le_or_lt (10000000 + δ) 20000000 with hb | hb
    · have := pc_r2 (10000000 + δ) (by linarith) hb
      linarith
    · rcases le_or_lt (10000000 + δ) 50000000 with hb2 | hb2
      · have := pc_r3 (10000000 + δ) (by linarith) hb2
        linarith
      · have := pc_r4 (10000000 + δ) (by linarith)
        linarith
  · rw [pc_at2Cr]
    rcases le_or_lt (20000000 + δ) 50000000 with hb | hb
    · have := pc_r3 (20000000 + δ) (by linarith) hb
      linarith
    · have := pc_r4 (20000000 + δ) (by linarith)
      linarith
  · rw [pc_at5Cr]
    have := pc_r4 (50000000 + δ) (by linarith)
    linarith

/-- C2 witness: the half-rupee bound at threshold 5000000 with delta 1. -/
theorem preCess_marginal_relief_bound_witness :
    ((some (5000000:ℚ), (0:ℚ)) ∈ SURCHARGE_SLABS_OLD ∧ (0:ℚ) < 1) ∧
    preCessOldB60 (5000000 + 1) ≤ preCessOldB60 5000000 + 1 + 1/2 :=
  ⟨⟨by norm_num [SURCHARGE_SLABS_OLD], by norm_num⟩,
   preCess_marginal_relief_bound 5000000 0 1 (by norm_num [SURCHARGE_SLABS_OLD])
     (by norm_num)⟩

/-- C8 counterexample.  With a negative next-year exemption option (outside
the non-negative money domain but allowed by the literal quantifier), the
split total exceeds the one-FY tax and `split_savings` is the raw negative
delta: the code applies no max-with-0. -/
theorem computeRedemptionTax_negative_option_cx :
    (0:ℚ) < 100000 ∧
    ¬ ((computeRedemptionTax 100000 (some 0) (some (-1000000))).split_savings =
      max ((computeRedemptionTax 100000 (some 0) (some (-1000000))).one_fy.tax -
        (computeRedemptionTax 100000 (some 0) (some (-1000000))).split_fy.total_tax) 0) := by
  norm_num [computeRedemptionTax, LTCG_EXEMPTION, LTCG_RATE, CESS_RATE, jround,
    Int.floor_eq_iff]
